import Mathlib

/-!
Shallow embedding of the balance-and-status reconciliation engine of
`src/server.js` (a small Express + sqlite3 back office for credit sales
"ventas", layaways "apartados" and installment payments "abonos").

Modelling conventions:
* SQL REAL amounts are modelled as exact rationals (`ℚ`).  All numeric
  comparisons appearing in the source (`<= 0.001`, `> saldo + 0.001`,
  `<= 0`) involve only values and constants that are compared the same
  way under exact rational arithmetic as under IEEE-754 doubles at every
  concrete input used below (checked separately for the boundary inputs).
* JavaScript's `parseFloat` can also produce `NaN`, `Infinity` and
  `-Infinity`; those are represented explicitly by `JsNum` so that the
  validation tests `isNaN(m)` and `m <= 0` and the admission test
  `m > saldo + 0.001` keep their JavaScript truth tables.
* Each SQLite table is a list of rows; `id` is the PRIMARY KEY, so a
  well-formed database has no duplicate ids (stated as a hypothesis
  `Nodup` where a proof needs it, never assumed silently).
* SQL `UPDATE ... WHERE` is a `List.map` touching exactly the rows the
  `WHERE` clause selects; `this.changes` is the number of selected rows;
  `db.get` is `List.find?`.
* The `JOIN clientes` in the list queries only adds the client name to
  each row; by the `FOREIGN KEY ... ON DELETE CASCADE` constraint every
  venta/apartado has its client, so the join is total and the client
  table is omitted from the model.  `ORDER BY` clauses are ignored: no
  claim speaks about row order.
* Node runs the handlers single-threaded and sqlite3 serializes the
  queued statements of one connection in FIFO order, so each handler's
  effects happen in one deterministic order; `postAbono` returns that
  order as a list of events (`Ev`), which records in particular whether
  the HTTP response is sent before or after the status write.
-/

-- Batteries hides the rational operations behind `@[irreducible]` purely
-- to keep goals tidy; evaluation of the embedded handlers on concrete
-- stores needs them to reduce again.
set_option allowUnsafeReducibility true in
attribute [semireducible] Rat.add Rat.sub Rat.mul Rat.inv Rat.ofScientific

/-- Result of JavaScript `parseFloat`: `NaN`, `Infinity`, `-Infinity`
or a finite value (modelled exactly as a rational). -/
inductive JsNum where
  | nan : JsNum
  | posInf : JsNum
  | negInf : JsNum
  | fin : ℚ → JsNum
  deriving DecidableEq

/-- JavaScript `isNaN`.  Note `isNaN(Infinity) === false`. -/
def JsNum.isNaNb : JsNum → Bool
  | .nan => true
  | _ => false

/-- JavaScript `m <= 0` (false for `NaN`, false for `Infinity`). -/
def JsNum.leZero : JsNum → Bool
  | .nan => false
  | .posInf => false
  | .negInf => true
  | .fin q => q ≤ 0

/-- JavaScript `m > r` against a finite right-hand side
(false for `NaN`, true for `Infinity`). -/
def JsNum.gtQ : JsNum → ℚ → Bool
  | .nan, _ => false
  | .posInf, _ => true
  | .negInf, _ => false
  | .fin q, r => r < q

/-- The finite value carried by a `JsNum`; junk value 0 otherwise.
In `postAbono` it is only ever applied on the admission success path,
where the earlier `isNaN`/`<= 0`/overpayment tests have already ruled
the non-finite cases out. -/
def JsNum.toQ : JsNum → ℚ
  | .fin q => q
  | _ => 0

/-- Row of table `ventas` (fields not read by the reconciliation logic,
such as `producto` and `clienteId`, are omitted). -/
structure Venta where
  id : Nat
  monto : ℚ
  fecha : String
  estado : String
  deriving DecidableEq

/-- Row of table `apartados`. -/
structure Apartado where
  id : Nat
  montoTotal : ℚ
  estadoApartado : String
  fechaEntrega : Option String
  deriving DecidableEq

/-- Row of table `abonos` (the AUTOINCREMENT id is not read back by any
of the modelled logic and is omitted). -/
structure Abono where
  ventaId : Option Nat
  apartadoId : Option Nat
  monto : ℚ
  fecha : String
  comentarios : Option String
  deriving DecidableEq

/-- The persistent store: the three tables the reconciliation engine
reads and writes. -/
structure DB where
  ventas : List Venta
  apartados : List Apartado
  abonos : List Abono
  deriving DecidableEq

/-- The epsilon `0.001` used by every fully-paid / overpayment
comparison in the source. -/
def eps : ℚ := 1 / 1000

/-- `IFNULL(SUM(a.monto), 0)` over `abonos a` with `a.ventaId = vid`. -/
def totalAbonadoVenta (abonos : List Abono) (vid : Nat) : ℚ :=
  ((abonos.filter (fun a => a.ventaId == some vid)).map (fun a => a.monto)).sum

/-- `IFNULL(SUM(a.monto), 0)` over `abonos a` with `a.apartadoId = aid`. -/
def totalAbonadoApartado (abonos : List Abono) (aid : Nat) : ℚ :=
  ((abonos.filter (fun a => a.apartadoId == some aid)).map (fun a => a.monto)).sum

/-- JavaScript truthiness of an optional id (absent and `0` are falsy). -/
def truthyNat : Option Nat → Bool
  | none => false
  | some n => n != 0

/-- JavaScript truthiness of an optional string (absent and `""` are falsy). -/
def truthyStr : Option String → Bool
  | none => false
  | some s => s != ""

/-- Request body of `POST /api/abonos`: `monto` is `none` when the field
is `undefined` and otherwise carries the `parseFloat` of whatever was
sent. -/
structure AbonoReq where
  ventaId : Option Nat
  apartadoId : Option Nat
  monto : Option JsNum
  fecha : Option String
  comentarios : Option String
  deriving DecidableEq

/-- Outcome of `POST /api/abonos`, following the source's error
taxonomy: the three 400 validation messages, the 404, the 400
overpayment message (which interpolates both the attempted amount and
the current balance), and the 201 with the created row. -/
inductive AbonoResult where
  | validationError (msg : String)
  | notFound (refType : String) (refId : Nat)
  | overpaymentError (montoAbono : JsNum) (saldoPendienteActual : ℚ)
  | created (a : Abono)
  deriving DecidableEq

/-- Whether an `AbonoResult` is one of the 400 validation rejections. -/
def AbonoResult.isValidation : AbonoResult → Bool
  | .validationError _ => true
  | _ => false

/-- Externally visible effects of one `POST /api/abonos` request, in the
order they actually happen (node is single-threaded and sqlite3 runs the
queued statements in FIFO order). -/
inductive Ev where
  | insert (a : Abono) : Ev
  | respond (status : Nat) : Ev
  | statusWrite : Ev
  deriving DecidableEq

/-- `UPDATE ventas SET estado = 'Pagada' WHERE id = ?` (the post-payment
status write of `POST /api/abonos` for a venta parent — note: no guard
on the current estado). -/
def ventaSetPagada (vid : Nat) (vs : List Venta) : List Venta :=
  vs.map (fun w => if w.id == vid then { w with estado := "Pagada" } else w)

/-- `UPDATE apartados SET estadoApartado = 'Pagado' WHERE id = ? AND
estadoApartado = 'Apartado'` (the post-payment status write of
`POST /api/abonos` for an apartado parent, and the write issued by
`GET /api/apartados`). -/
def apartadoSetPagado (aid : Nat) (aps : List Apartado) : List Apartado :=
  aps.map (fun ap =>
    if ap.id == aid && ap.estadoApartado == "Apartado" then
      { ap with estadoApartado := "Pagado" } else ap)

/-- The insert callback of `POST /api/abonos` for a venta parent
(src/server.js lines 629-675): the row is inserted, the fully-paid
check recomputes the balance over the post-insert payment set, and the
(unguarded) `'Pagada'` status UPDATE is applied when it passes; the 201
response is sent right after the status query is queued, so the status
write comes after it in the event order. -/
def ventaInsert (db : DB) (refId : Nat) (v : Venta) (a : Abono) :
    AbonoResult × DB × List Ev :=
  if v.monto - totalAbonadoVenta (db.abonos ++ [a]) refId ≤ eps then
    (.created a,
     { ventas := ventaSetPagada refId db.ventas, apartados := db.apartados,
       abonos := db.abonos ++ [a] },
     [.insert a, .respond 201, .statusWrite])
  else
    (.created a, { db with abonos := db.abonos ++ [a] }, [.insert a, .respond 201])

/-- The insert callback of `POST /api/abonos` for an apartado parent:
as `ventaInsert`, but the status UPDATE is guarded by
`estadoApartado = 'Apartado'`. -/
def apartadoInsert (db : DB) (refId : Nat) (ap : Apartado) (a : Abono) :
    AbonoResult × DB × List Ev :=
  if ap.montoTotal - totalAbonadoApartado (db.abonos ++ [a]) refId ≤ eps then
    (.created a,
     { ventas := db.ventas, apartados := apartadoSetPagado refId db.apartados,
       abonos := db.abonos ++ [a] },
     [.insert a, .respond 201, .statusWrite])
  else
    (.created a, { db with abonos := db.abonos ++ [a] }, [.insert a, .respond 201])

/-- Handler of `POST /api/abonos` (src/server.js lines 560-677).
Returns the HTTP-level result, the database after all queued statements
have run, and the ordered list of externally visible effects. -/
def postAbono (req : AbonoReq) (db : DB) : AbonoResult × DB × List Ev :=
  if (!truthyNat req.ventaId && !truthyNat req.apartadoId)
      || (truthyNat req.ventaId && truthyNat req.apartadoId) then
    (.validationError "Payment must be linked to either a ventaId OR an apartadoId, but not both or neither.",
     db, [.respond 400])
  else if req.monto == none || !truthyStr req.fecha then
    (.validationError "Missing required fields for payment (monto, fecha).",
     db, [.respond 400])
  else if (req.monto.getD .nan).isNaNb || (req.monto.getD .nan).leZero then
    (.validationError "Payment amount must be a positive number.",
     db, [.respond 400])
  else if truthyNat req.ventaId then
    match db.ventas.find? (fun v => v.id == req.ventaId.getD 0) with
    | none => (.notFound "venta" (req.ventaId.getD 0), db, [.respond 404])
    | some v =>
      if (req.monto.getD .nan).gtQ
          (v.monto - totalAbonadoVenta db.abonos (req.ventaId.getD 0) + eps) then
        (.overpaymentError (req.monto.getD .nan)
          (v.monto - totalAbonadoVenta db.abonos (req.ventaId.getD 0)), db, [.respond 400])
      else
        ventaInsert db (req.ventaId.getD 0) v
          { ventaId := some (req.ventaId.getD 0), apartadoId := none,
            monto := (req.monto.getD .nan).toQ, fecha := req.fecha.getD "",
            comentarios := req.comentarios }
  else
    match db.apartados.find? (fun ap => ap.id == req.apartadoId.getD 0) with
    | none => (.notFound "apartado" (req.apartadoId.getD 0), db, [.respond 404])
    | some ap =>
      if (req.monto.getD .nan).gtQ
          (ap.montoTotal - totalAbonadoApartado db.abonos (req.apartadoId.getD 0) + eps) then
        (.overpaymentError (req.monto.getD .nan)
          (ap.montoTotal - totalAbonadoApartado db.abonos (req.apartadoId.getD 0)), db, [.respond 400])
      else
        apartadoInsert db (req.apartadoId.getD 0) ap
          { ventaId := none, apartadoId := some (req.apartadoId.getD 0),
            monto := (req.monto.getD .nan).toQ, fecha := req.fecha.getD "",
            comentarios := req.comentarios }

theorem ventaInsert_fst (db : DB) (refId : Nat) (v : Venta) (a : Abono) :
    (ventaInsert db refId v a).1 = .created a := by
  unfold ventaInsert; split <;> rfl

theorem ventaInsert_abonos (db : DB) (refId : Nat) (v : Venta) (a : Abono) :
    (ventaInsert db refId v a).2.1.abonos = db.abonos ++ [a] := by
  unfold ventaInsert; split <;> rfl

theorem ventaInsert_apartados (db : DB) (refId : Nat) (v : Venta) (a : Abono) :
    (ventaInsert db refId v a).2.1.apartados = db.apartados := by
  unfold ventaInsert; split <;> rfl

theorem apartadoInsert_fst (db : DB) (refId : Nat) (ap : Apartado) (a : Abono) :
    (apartadoInsert db refId ap a).1 = .created a := by
  unfold apartadoInsert; split <;> rfl

theorem apartadoInsert_abonos (db : DB) (refId : Nat) (ap : Apartado) (a : Abono) :
    (apartadoInsert db refId ap a).2.1.abonos = db.abonos ++ [a] := by
  unfold apartadoInsert; split <;> rfl

theorem apartadoInsert_ventas (db : DB) (refId : Nat) (ap : Apartado) (a : Abono) :
    (apartadoInsert db refId ap a).2.1.ventas = db.ventas := by
  unfold apartadoInsert; split <;> rfl

theorem apartadoInsert_apartados (db : DB) (refId : Nat) (ap : Apartado) (a : Abono) :
    (apartadoInsert db refId ap a).2.1.apartados = db.apartados ∨
    (apartadoInsert db refId ap a).2.1.apartados = apartadoSetPagado refId db.apartados := by
  unfold apartadoInsert; split
  · exact Or.inr rfl
  · exact Or.inl rfl

/-- Row of the `GET /api/ventas` response: the sale's columns joined
with the aggregates `totalAbonado` and `saldoPendiente` and the status
recomputed from the balance. -/
structure VentaRow where
  id : Nat
  monto : ℚ
  estado : String
  totalAbonado : ℚ
  saldoPendiente : ℚ
  deriving DecidableEq

/-- The row `GET /api/ventas` builds for one sale: aggregates from the
LEFT JOIN plus `estado: saldoPendiente <= 0.001 ? "Pagada" : "Pendiente"`. -/
def enrichVenta (abonos : List Abono) (v : Venta) : VentaRow :=
  let totalAbonado := totalAbonadoVenta abonos v.id
  let saldoPendiente := v.monto - totalAbonado
  { id := v.id, monto := v.monto,
    estado := if saldoPendiente ≤ eps then "Pagada" else "Pendiente",
    totalAbonado := totalAbonado, saldoPendiente := saldoPendiente }

/-- `UPDATE ventas SET estado = ? WHERE id = ? AND estado != ?`; returns
the updated table together with `this.changes`, the number of rows the
WHERE clause selected. -/
def updateVentaEstado (target : String) (vid : Nat) (vs : List Venta) :
    List Venta × Nat :=
  (vs.map (fun w => if w.id == vid && w.estado != target then
      { w with estado := target } else w),
   (vs.filter (fun w => w.id == vid && w.estado != target)).length)

/-- One step of the write-back loop of `GET /api/ventas`: for the row
`r` the handler issues `UPDATE ventas SET estado = r.estado WHERE id =
r.id AND estado != r.estado`; a write is effective when it changed at
least one row. -/
def ventasReconcileStep (acc : List Venta × List (Nat × String)) (r : VentaRow) :
    List Venta × List (Nat × String) :=
  ((updateVentaEstado r.estado r.id acc.1).1,
   acc.2 ++ if (updateVentaEstado r.estado r.id acc.1).2 != 0 then [(r.id, r.estado)] else [])

/-- Handler of `GET /api/ventas` (src/server.js lines 216-247): builds
the enriched rows, then writes the recomputed status back for every row.
Returns the response rows, the database after the queued updates ran,
and the list of effective status writes (id, new status). -/
def getVentas (db : DB) : List VentaRow × DB × List (Nat × String) :=
  let rows := db.ventas.map (enrichVenta db.abonos)
  let p := rows.foldl ventasReconcileStep (db.ventas, [])
  (rows, { db with ventas := p.1 }, p.2)

/-- Row of the `GET /api/apartados` response. -/
structure ApartadoRow where
  id : Nat
  montoTotal : ℚ
  estadoApartado : String
  fechaEntrega : Option String
  totalAbonado : ℚ
  saldoPendiente : ℚ
  deriving DecidableEq

/-- The row `GET /api/apartados` builds for one layaway: the stored
status is promoted to `"Pagado"` only when it is `"Apartado"` and the
balance is settled; every other stored status is passed through. -/
def enrichApartado (abonos : List Abono) (ap : Apartado) : ApartadoRow :=
  let totalAbonado := totalAbonadoApartado abonos ap.id
  let saldoPendiente := ap.montoTotal - totalAbonado
  { id := ap.id, montoTotal := ap.montoTotal,
    estadoApartado :=
      if ap.estadoApartado == "Apartado" && saldoPendiente ≤ eps then
        "Pagado" else ap.estadoApartado,
    fechaEntrega := ap.fechaEntrega,
    totalAbonado := totalAbonado, saldoPendiente := saldoPendiente }

/-- `this.changes` of `UPDATE apartados SET estadoApartado = 'Pagado'
WHERE id = ? AND estadoApartado = 'Apartado'`. -/
def apartadoPagadoChanges (aid : Nat) (aps : List Apartado) : Nat :=
  (aps.filter (fun ap => ap.id == aid && ap.estadoApartado == "Apartado")).length

/-- The write-issue test of the `GET /api/apartados` write-back loop:
the recomputed status is `"Pagado"` and differs from the stored one (the
handler compares against the original row, found by id — with unique
ids that is the row `orig` itself). -/
def apartadoCond (abonos : List Abono) (orig : Apartado) : Bool :=
  (enrichApartado abonos orig).estadoApartado == "Pagado" &&
  (enrichApartado abonos orig).estadoApartado != orig.estadoApartado

/-- One step of the write-back loop of `GET /api/apartados`: the UPDATE
is issued only when `apartadoCond` holds. -/
def apartadosReconcileStep (abonos : List Abono)
    (acc : List Apartado × List Nat) (orig : Apartado) : List Apartado × List Nat :=
  if apartadoCond abonos orig then
    (apartadoSetPagado orig.id acc.1,
     acc.2 ++ if apartadoPagadoChanges orig.id acc.1 != 0 then [orig.id] else [])
  else acc

/-- Handler of `GET /api/apartados` (src/server.js lines 370-414).
Returns the response rows, the database after the queued updates ran,
and the ids of the effective `'Pagado'` status writes. -/
def getApartados (db : DB) : List ApartadoRow × DB × List Nat :=
  let rows := db.apartados.map (enrichApartado db.abonos)
  let p := db.apartados.foldl (apartadosReconcileStep db.abonos) (db.apartados, [])
  (rows, { db with apartados := p.1 }, p.2)

/-- Outcome of `PUT /api/apartados/:id/entregar`: the 200 with the
stamped delivery date, the 400 reporting the current state, or the 404. -/
inductive EntregarResult where
  | entregado (fechaEntrega : String) : EntregarResult
  | estadoInvalido (estadoActual : String) : EntregarResult
  | noEncontrado : EntregarResult
  deriving DecidableEq

/-- Handler of `PUT /api/apartados/:id/entregar` (src/server.js lines
415-451): `UPDATE apartados SET estadoApartado = 'Entregado',
fechaEntrega = ? WHERE id = ? AND estadoApartado = 'Pagado'` with
`fechaEntrega` the current date; if no row changed, a follow-up SELECT
distinguishes wrong-state (400, reporting the current state) from
not-found (404). -/
def entregarApartado (hoy : String) (apartadoId : Nat) (db : DB) :
    EntregarResult × DB :=
  let changes :=
    (db.apartados.filter (fun ap => ap.id == apartadoId && ap.estadoApartado == "Pagado")).length
  if changes == 0 then
    match db.apartados.find? (fun ap => ap.id == apartadoId) with
    | some row =>
      if row.estadoApartado != "Pagado" then (.estadoInvalido row.estadoApartado, db)
      else (.noEncontrado, db)
    | none => (.noEncontrado, db)
  else
    (.entregado hoy,
     { db with apartados := db.apartados.map (fun ap =>
        if ap.id == apartadoId && ap.estadoApartado == "Pagado" then
          { ap with estadoApartado := "Entregado", fechaEntrega := some hoy }
        else ap) })

/-- Outcome of `PUT /api/apartados/:id/cancelar`: the 200, or the single
400 used both for a wrong current state and for a missing id. -/
inductive CancelarResult where
  | cancelado : CancelarResult
  | noCancelable : CancelarResult
  deriving DecidableEq

/-- Handler of `PUT /api/apartados/:id/cancelar` (src/server.js lines
452-474): `UPDATE apartados SET estadoApartado = 'Cancelado' WHERE id =
? AND estadoApartado IN ('Apartado', 'Pagado')`; 400 when no row
changed. -/
def cancelarApartado (apartadoId : Nat) (db : DB) : CancelarResult × DB :=
  let changes :=
    (db.apartados.filter (fun ap => ap.id == apartadoId &&
      (ap.estadoApartado == "Apartado" || ap.estadoApartado == "Pagado"))).length
  if changes == 0 then (.noCancelable, db)
  else
    (.cancelado,
     { db with apartados := db.apartados.map (fun ap =>
        if ap.id == apartadoId &&
            (ap.estadoApartado == "Apartado" || ap.estadoApartado == "Pagado") then
          { ap with estadoApartado := "Cancelado" } else ap) })

/-- The standing balance invariant of the spec: for every sale and every
layaway, the payments referencing it sum to at most its total amount
plus the 0.001 tolerance. -/
def balanceInv (db : DB) : Prop :=
  (∀ v ∈ db.ventas, totalAbonadoVenta db.abonos v.id ≤ v.monto + eps) ∧
  (∀ ap ∈ db.apartados, totalAbonadoApartado db.abonos ap.id ≤ ap.montoTotal + eps)

instance : DecidablePred balanceInv := fun db => by
  unfold balanceInv; infer_instance

/-- Well-formedness provided by the SQL PRIMARY KEY columns: no two
sales and no two layaways share an id. -/
def idsNodup (db : DB) : Prop :=
  (db.ventas.map (fun v => v.id)).Nodup ∧ (db.apartados.map (fun ap => ap.id)).Nodup

instance : DecidablePred idsNodup := fun db => by
  unfold idsNodup; infer_instance

/-- Outstanding balance of the parent a payment request references
(venta when `ventaId` is truthy, apartado otherwise), `none` when that
parent does not exist. -/
def parentSaldo (req : AbonoReq) (db : DB) : Option ℚ :=
  if truthyNat req.ventaId then
    (db.ventas.find? (fun v => v.id == req.ventaId.getD 0)).map
      (fun v => v.monto - totalAbonadoVenta db.abonos v.id)
  else
    (db.apartados.find? (fun ap => ap.id == req.apartadoId.getD 0)).map
      (fun ap => ap.montoTotal - totalAbonadoApartado db.abonos ap.id)

/-- C1 (counterexample): against an outstanding balance of 100.00, a
payment of 100.001 is NOT rejected: the source's admission test is the
strict `montoAbono > saldoPendienteActual + 0.001`, and 100.001 equals
the boundary 100.00 + 0.001, so the payment is admitted and the row is
created.  (The same holds under IEEE-754 doubles: `100.001 > 100 +
0.001` evaluates to `false` in JavaScript.)  This refutes the claim's
"a payment of 100.001 is rejected". -/
theorem c1_boundary_counterexample :
    (postAbono ⟨some 1, none, some (.fin (100001/1000)), some "2026-01-01", none⟩
       ⟨[⟨1, 100, "2026-01-01", "Pendiente"⟩], [], []⟩).1
      = .created ⟨some 1, none, 100001/1000, "2026-01-01", none⟩ := by decide

/-- C1 (amended): for a validated payment request (parent reference a
single truthy id, a finite positive amount, a nonempty date) whose
parent exists, admission fails with the overpayment error — which
reports both the attempted amount and the pre-admission outstanding
balance — exactly when the amount STRICTLY exceeds that balance plus
epsilon (0.001); at the boundary, an amount equal to balance + 0.001
(such as 100.001 against 100.00) is accepted, as is 100.0005. -/
theorem c1_overpayment_iff :
    (∀ (db : DB) (vid : Nat) (v : Venta) (q : ℚ) (fecha : String) (com : Option String),
      vid ≠ 0 → db.ventas.find? (fun w => w.id == vid) = some v → 0 < q → fecha ≠ "" →
      ((postAbono ⟨some vid, none, some (.fin q), some fecha, com⟩ db).1
          = .overpaymentError (.fin q) (v.monto - totalAbonadoVenta db.abonos vid)
        ↔ (v.monto - totalAbonadoVenta db.abonos vid) + eps < q))
    ∧ (∀ (db : DB) (aid : Nat) (ap : Apartado) (q : ℚ) (fecha : String) (com : Option String),
      aid ≠ 0 → db.apartados.find? (fun w => w.id == aid) = some ap → 0 < q → fecha ≠ "" →
      ((postAbono ⟨none, some aid, some (.fin q), some fecha, com⟩ db).1
          = .overpaymentError (.fin q) (ap.montoTotal - totalAbonadoApartado db.abonos aid)
        ↔ (ap.montoTotal - totalAbonadoApartado db.abonos aid) + eps < q)) := by
  constructor
  · intro db vid v q fecha com hvid hfind hq hfecha
    have hq' : ¬ q ≤ 0 := not_le.mpr hq
    have hf : (fecha != "") = true := bne_iff_ne.mpr hfecha
    have hv : (vid != 0) = true := bne_iff_ne.mpr hvid
    simp only [postAbono, truthyNat, truthyStr, hf, hv, Option.getD_some,
      JsNum.isNaNb, JsNum.leZero, JsNum.gtQ, hfind, Bool.not_true, Bool.not_false,
      Bool.and_false, Bool.false_and, Bool.and_true, Bool.true_and, Bool.or_false,
      Bool.false_or, decide_eq_true_eq, Option.some.injEq, if_false]
    simp only [decide_eq_false hq', Bool.or_self, Bool.false_eq_true, if_false,
      decide_eq_true_eq]
    by_cases h : v.monto - totalAbonadoVenta db.abonos vid + eps < q
    · simp [h, hq']
    · simp [h, hq', ventaInsert_fst]
  · intro db aid ap q fecha com haid hfind hq hfecha
    have hq' : ¬ q ≤ 0 := not_le.mpr hq
    have hf : (fecha != "") = true := bne_iff_ne.mpr hfecha
    have ha : (aid != 0) = true := bne_iff_ne.mpr haid
    simp only [postAbono, truthyNat, truthyStr, hf, ha, Option.getD_some,
      JsNum.isNaNb, JsNum.leZero, JsNum.gtQ, hfind, Bool.not_true, Bool.not_false,
      Bool.and_false, Bool.false_and, Bool.and_true, Bool.true_and, Bool.or_false,
      Bool.false_or, decide_eq_true_eq, Option.some.injEq, if_false]
    simp only [decide_eq_false hq', Bool.or_self, Bool.false_eq_true, if_false,
      decide_eq_true_eq]
    by_cases h : ap.montoTotal - totalAbonadoApartado db.abonos aid + eps < q
    · simp [h, hq']
    · simp [h, hq', apartadoInsert_fst]

/-- C1 (witness): a payment of 100.002 against an outstanding balance of
100.00 is rejected with the overpayment error carrying both figures. -/
theorem c1_overpayment_iff_witness :
    (postAbono ⟨some 1, none, some (.fin (50001/500)), some "2026-01-01", none⟩
       ⟨[⟨1, 100, "2026-01-01", "Pendiente"⟩], [], []⟩).1
      = .overpaymentError (.fin (50001/500))
          (100 - totalAbonadoVenta [] 1) :=
  (c1_overpayment_iff.1 ⟨[⟨1, 100, "2026-01-01", "Pendiente"⟩], [], []⟩ 1
      ⟨1, 100, "2026-01-01", "Pendiente"⟩ (50001/500) "2026-01-01" none
      (by decide) (by decide) (by decide) (by decide)).mpr (by decide)

/-- C4 (counterexample): a positive but non-finite amount — e.g. the
body value `"Infinity"`, whose `parseFloat` is `Infinity` — is not a
positive finite number, yet the source does not reject it with the
validation error: `isNaN(Infinity)` is `false` and `Infinity <= 0` is
`false`, so it passes validation and is rejected downstream as an
overpayment (here against an existing sale with balance 100). -/
theorem c4_infinite_amount_counterexample :
    (postAbono ⟨some 1, none, some .posInf, some "2026-01-01", none⟩
       ⟨[⟨1, 100, "2026-01-01", "Pendiente"⟩], [], []⟩).1
      = .overpaymentError .posInf 100
    ∧ (postAbono ⟨some 1, none, some .posInf, some "2026-01-01", none⟩
       ⟨[⟨1, 100, "2026-01-01", "Pendiente"⟩], [], []⟩).1.isValidation = false := by
  constructor <;> decide

/-- C4 (amended): payment admission fails with a validation error, with
the store unchanged, exactly when the parent reference is not exactly
one truthy id (both truthy or neither truthy), or the amount field is
absent, or the date is missing or empty, or the amount parses to `NaN`
or to a value `<= 0`.  A positive non-finite amount (`Infinity`) passes
validation and is rejected later as overpayment or not-found. -/
theorem c4_validation_iff (db : DB) (req : AbonoReq) :
    ((postAbono req db).1.isValidation = true ↔
      truthyNat req.ventaId = truthyNat req.apartadoId ∨ req.monto = none ∨
      truthyStr req.fecha = false ∨
      (∃ m, req.monto = some m ∧ (m.isNaNb || m.leZero) = true))
    ∧ ((postAbono req db).1.isValidation = true → (postAbono req db).2.1 = db) := by
  unfold postAbono
  cases h1 : ((!truthyNat req.ventaId && !truthyNat req.apartadoId)
      || (truthyNat req.ventaId && truthyNat req.apartadoId))
  case true =>
    have hab : truthyNat req.ventaId = truthyNat req.apartadoId := by
      revert h1; cases truthyNat req.ventaId <;> cases truthyNat req.apartadoId <;> simp
    exact ⟨⟨fun _ => Or.inl hab, fun _ => rfl⟩, fun _ => rfl⟩
  case false =>
    have hab : ¬ truthyNat req.ventaId = truthyNat req.apartadoId := by
      revert h1; cases truthyNat req.ventaId <;> cases truthyNat req.apartadoId <;> simp
    cases h2 : (req.monto == none || !truthyStr req.fecha)
    case true =>
      have hmf : req.monto = none ∨ truthyStr req.fecha = false := by
        revert h2
        cases hm : req.monto == none
        · cases hf : truthyStr req.fecha
          · intro _; exact Or.inr rfl
          · simp [hf]
        · intro _; exact Or.inl (by simpa using hm)
      exact ⟨⟨fun _ => Or.inr (by tauto), fun _ => rfl⟩, fun _ => rfl⟩
    case false =>
      have hm : req.monto ≠ none := by
        revert h2; cases hmo : req.monto == none
        · intro _; simpa using hmo
        · simp
      have hf : truthyStr req.fecha = true := by
        revert h2; cases hfe : truthyStr req.fecha
        · simp
        · intro _; rfl
      obtain ⟨m, hmm⟩ : ∃ m, req.monto = some m := Option.ne_none_iff_exists'.mp hm
      cases h3 : ((req.monto.getD .nan).isNaNb || (req.monto.getD .nan).leZero)
      case true =>
        simp only [h3]
        refine ⟨⟨fun _ => ?_, fun _ => rfl⟩, fun _ => rfl⟩
        exact Or.inr (Or.inr (Or.inr ⟨m, hmm, by rw [hmm, Option.getD_some] at h3; exact h3⟩))
      case false =>
        simp only [h3, Bool.false_eq_true, if_false]
        constructor
        · constructor
          · intro h; exfalso; revert h
            split
            · split
              · exact fun h => Bool.noConfusion h
              · split
                · exact fun h => Bool.noConfusion h
                · intro h; rw [ventaInsert_fst] at h; exact Bool.noConfusion h
            · split
              · exact fun h => Bool.noConfusion h
              · split
                · exact fun h => Bool.noConfusion h
                · intro h; rw [apartadoInsert_fst] at h; exact Bool.noConfusion h
          · rintro (h | h | h | ⟨m', hm', hval⟩)
            · exact absurd h hab
            · exact absurd h hm
            · exfalso; rw [h] at hf; cases hf
            · exfalso
              rw [hm', Option.getD_some] at h3
              rw [hm'] at hmm; cases hmm
              rw [hval] at h3; cases h3
        · intro h; exfalso; revert h
          split
          · split
            · exact fun h => Bool.noConfusion h
            · split
              · exact fun h => Bool.noConfusion h
              · intro h; rw [ventaInsert_fst] at h; exact Bool.noConfusion h
          · split
            · exact fun h => Bool.noConfusion h
            · split
              · exact fun h => Bool.noConfusion h
              · intro h; rw [apartadoInsert_fst] at h; exact Bool.noConfusion h

/-- C4 (witness): a request carrying both a sale reference and a layaway
reference is rejected by validation and leaves the store unchanged. -/
theorem c4_validation_iff_witness :
    (postAbono ⟨some 1, some 2, some (.fin 5), some "2026-01-01", none⟩
       ⟨[⟨1, 100, "2026-01-01", "Pendiente"⟩], [], []⟩).1.isValidation = true
    ∧ (postAbono ⟨some 1, some 2, some (.fin 5), some "2026-01-01", none⟩
       ⟨[⟨1, 100, "2026-01-01", "Pendiente"⟩], [], []⟩).2.1
      = ⟨[⟨1, 100, "2026-01-01", "Pendiente"⟩], [], []⟩ :=
  ⟨(c4_validation_iff ⟨[⟨1, 100, "2026-01-01", "Pendiente"⟩], [], []⟩
      ⟨some 1, some 2, some (.fin 5), some "2026-01-01", none⟩).1.mpr (Or.inl (by decide)),
   (c4_validation_iff ⟨[⟨1, 100, "2026-01-01", "Pendiente"⟩], [], []⟩
      ⟨some 1, some 2, some (.fin 5), some "2026-01-01", none⟩).2
     ((c4_validation_iff ⟨[⟨1, 100, "2026-01-01", "Pendiente"⟩], [], []⟩
      ⟨some 1, some 2, some (.fin 5), some "2026-01-01", none⟩).1.mpr (Or.inl (by decide)))⟩

/-- When no row matches `id = ? AND estadoApartado = 'Pagado'`, the
delivery UPDATE changes nothing: the handler cannot answer 200 and the
store is untouched. -/
theorem entregarApartado_no_match (db : DB) (id : Nat) (hoy : String)
    (h : db.apartados.filter (fun ap => ap.id == id && ap.estadoApartado == "Pagado") = []) :
    ((entregarApartado hoy id db).1 = .entregado hoy → False) ∧
    (entregarApartado hoy id db).2 = db := by
  have hb : ((db.apartados.filter
      (fun ap => ap.id == id && ap.estadoApartado == "Pagado")).length == 0) = true := by
    simp [h]
  unfold entregarApartado
  rw [if_pos hb]
  constructor
  · split
    · split
      · exact fun hres => EntregarResult.noConfusion hres
      · exact fun hres => EntregarResult.noConfusion hres
    · exact fun hres => EntregarResult.noConfusion hres
  · split
    · split
      · rfl
      · rfl
    · rfl

/-- When some row matches `id = ? AND estadoApartado = 'Pagado'`, the
delivery UPDATE succeeds and rewrites exactly the matching rows. -/
theorem entregarApartado_match (db : DB) (id : Nat) (hoy : String)
    (h : db.apartados.filter (fun ap => ap.id == id && ap.estadoApartado == "Pagado") ≠ []) :
    (entregarApartado hoy id db).1 = .entregado hoy ∧
    (entregarApartado hoy id db).2 =
      { db with apartados := db.apartados.map (fun ap =>
          if ap.id == id && ap.estadoApartado == "Pagado" then
            { ap with estadoApartado := "Entregado", fechaEntrega := some hoy }
          else ap) } := by
  have hlen : (db.apartados.filter
      (fun ap => ap.id == id && ap.estadoApartado == "Pagado")).length ≠ 0 := by
    simpa [List.length_eq_zero] using h
  have hb : ((db.apartados.filter
      (fun ap => ap.id == id && ap.estadoApartado == "Pagado")).length == 0) = false := by
    cases hh : ((db.apartados.filter
        (fun ap => ap.id == id && ap.estadoApartado == "Pagado")).length == 0)
    · rfl
    · exact absurd (by simpa using hh) hlen
  unfold entregarApartado
  rw [if_neg (by simp [hb])]
  exact ⟨rfl, rfl⟩

/-- C7: the delivery action on a layaway succeeds exactly when a layaway
with that id exists in state `"Pagado"`; on success it moves the (unique
matching) row to `"Entregado"` and stamps the delivery date with the
current date, leaving all other rows unchanged; invoked on an existing
layaway in any other state (ids unique, per the PRIMARY KEY) it fails
reporting that current state and leaves the store unchanged. -/
theorem c7_entregar_characterization :
    (∀ (db : DB) (id : Nat) (hoy : String),
      ((entregarApartado hoy id db).1 = .entregado hoy ↔
        ∃ ap ∈ db.apartados, ap.id = id ∧ ap.estadoApartado = "Pagado"))
    ∧ (∀ (db : DB) (id : Nat) (hoy : String) (i : Nat) (ap : Apartado),
      db.apartados[i]? = some ap →
      (entregarApartado hoy id db).1 = .entregado hoy →
      (entregarApartado hoy id db).2.apartados[i]? =
        some (if ap.id = id ∧ ap.estadoApartado = "Pagado" then
          { ap with estadoApartado := "Entregado", fechaEntrega := some hoy } else ap))
    ∧ (∀ (db : DB) (id : Nat) (hoy : String) (ap : Apartado),
      db.apartados.find? (fun w => w.id == id) = some ap →
      ap.estadoApartado ≠ "Pagado" →
      (db.apartados.map (fun w => w.id)).Nodup →
      (entregarApartado hoy id db).1 = .estadoInvalido ap.estadoApartado ∧
      (entregarApartado hoy id db).2 = db) := by
  refine ⟨?_, ?_, ?_⟩
  · intro db id hoy
    by_cases h : db.apartados.filter
        (fun ap => ap.id == id && ap.estadoApartado == "Pagado") = []
    · constructor
      · intro hres; exact absurd hres (fun hr => (entregarApartado_no_match db id hoy h).1 hr)
      · rintro ⟨ap, hmem, hid, hest⟩
        exfalso
        have hf : ap ∈ db.apartados.filter
            (fun ap => ap.id == id && ap.estadoApartado == "Pagado") :=
          List.mem_filter.mpr ⟨hmem, by simp [hid, hest]⟩
        rw [h] at hf; cases hf
    · constructor
      · intro _
        obtain ⟨ap, hap⟩ := List.exists_mem_of_ne_nil _ h
        have hm := List.mem_filter.mp hap
        have hp : ap.id = id ∧ ap.estadoApartado = "Pagado" := by simpa using hm.2
        exact ⟨ap, hm.1, hp.1, hp.2⟩
      · intro _; exact (entregarApartado_match db id hoy h).1
  · intro db id hoy i ap hi hres
    by_cases h : db.apartados.filter
        (fun ap => ap.id == id && ap.estadoApartado == "Pagado") = []
    · exact absurd hres (fun hr => (entregarApartado_no_match db id hoy h).1 hr)
    · rw [(entregarApartado_match db id hoy h).2]
      show (db.apartados.map _)[i]? = _
      rw [List.getElem?_map, hi]
      by_cases hc : ap.id = id ∧ ap.estadoApartado = "Pagado"
      · rw [if_pos hc]
        simp only [Option.map_some']
        congr 1
        rw [if_pos (by simp [hc.1, hc.2])]
      · rw [if_neg hc]
        simp only [Option.map_some']
        congr 1
        rw [if_neg ?_]
        intro hb
        simp only [Bool.and_eq_true, beq_iff_eq] at hb
        exact hc ⟨hb.1, hb.2⟩
  · intro db id hoy ap hfind hne hnd
    have hmem : ap ∈ db.apartados := List.mem_of_find?_eq_some hfind
    have hid : ap.id = id := by simpa using List.find?_some hfind
    have h : db.apartados.filter
        (fun ap => ap.id == id && ap.estadoApartado == "Pagado") = [] := by
      rw [List.filter_eq_nil_iff]
      intro w hw hpw
      simp only [Bool.and_eq_true, beq_iff_eq] at hpw
      have hw_eq : w = ap :=
        List.inj_on_of_nodup_map hnd hw hmem (by rw [hpw.1, hid])
      rw [hw_eq] at hpw
      exact hne hpw.2
    have hb : ((db.apartados.filter
        (fun ap => ap.id == id && ap.estadoApartado == "Pagado")).length == 0) = true := by
      simp [h]
    constructor
    · show (entregarApartado hoy id db).1 = _
      unfold entregarApartado
      rw [if_pos hb, hfind]
      show (if (ap.estadoApartado != "Pagado") = true then
          (EntregarResult.estadoInvalido ap.estadoApartado, db)
        else (EntregarResult.noEncontrado, db)).1 = EntregarResult.estadoInvalido ap.estadoApartado
      rw [if_pos (bne_iff_ne.mpr hne)]
    · exact (entregarApartado_no_match db id hoy h).2

/-- C7 (witness): a layaway in state `"Pagado"` accepts delivery, moves
to `"Entregado"` and is stamped with the current date; the follow-up
facts are obtained from the characterization at a concrete store. -/
theorem c7_entregar_characterization_witness :
    (entregarApartado "2026-02-02" 1 ⟨[], [⟨1, 50, "Pagado", none⟩], []⟩).1
      = .entregado "2026-02-02"
    ∧ (entregarApartado "2026-02-02" 1 ⟨[], [⟨1, 50, "Pagado", none⟩], []⟩).2.apartados[0]?
      = some ⟨1, 50, "Entregado", some "2026-02-02"⟩ := by
  have h1 := (c7_entregar_characterization.1 ⟨[], [⟨1, 50, "Pagado", none⟩], []⟩ 1 "2026-02-02").mpr
    ⟨⟨1, 50, "Pagado", none⟩, by decide, rfl, rfl⟩
  refine ⟨h1, ?_⟩
  have h2 := c7_entregar_characterization.2.1 ⟨[], [⟨1, 50, "Pagado", none⟩], []⟩ 1 "2026-02-02"
    0 ⟨1, 50, "Pagado", none⟩ rfl h1
  rw [if_pos ⟨rfl, rfl⟩] at h2
  exact h2

/-- When no row matches `id = ? AND estadoApartado IN ('Apartado',
'Pagado')`, the cancellation UPDATE changes nothing: the handler answers
400 and the store is untouched. -/
theorem cancelarApartado_no_match (db : DB) (id : Nat)
    (h : db.apartados.filter (fun ap => ap.id == id &&
      (ap.estadoApartado == "Apartado" || ap.estadoApartado == "Pagado")) = []) :
    (cancelarApartado id db).1 = .noCancelable ∧ (cancelarApartado id db).2 = db := by
  have hb : ((db.apartados.filter (fun ap => ap.id == id &&
      (ap.estadoApartado == "Apartado" || ap.estadoApartado == "Pagado"))).length == 0) = true := by
    simp [h]
  unfold cancelarApartado
  rw [if_pos hb]
  exact ⟨rfl, rfl⟩

/-- When some row matches, the cancellation UPDATE succeeds and rewrites
exactly the matching rows to `"Cancelado"`. -/
theorem cancelarApartado_match (db : DB) (id : Nat)
    (h : db.apartados.filter (fun ap => ap.id == id &&
      (ap.estadoApartado == "Apartado" || ap.estadoApartado == "Pagado")) ≠ []) :
    (cancelarApartado id db).1 = .cancelado ∧
    (cancelarApartado id db).2 =
      { db with apartados := db.apartados.map (fun ap =>
          if ap.id == id && (ap.estadoApartado == "Apartado" || ap.estadoApartado == "Pagado") then
            { ap with estadoApartado := "Cancelado" } else ap) } := by
  have hlen : (db.apartados.filter (fun ap => ap.id == id &&
      (ap.estadoApartado == "Apartado" || ap.estadoApartado == "Pagado"))).length ≠ 0 := by
    simpa [List.length_eq_zero] using h
  have hb : ((db.apartados.filter (fun ap => ap.id == id &&
      (ap.estadoApartado == "Apartado" || ap.estadoApartado == "Pagado"))).length == 0) = false := by
    cases hh : ((db.apartados.filter (fun ap => ap.id == id &&
        (ap.estadoApartado == "Apartado" || ap.estadoApartado == "Pagado"))).length == 0)
    · rfl
    · exact absurd (by simpa using hh) hlen
  unfold cancelarApartado
  rw [if_neg (by simp [hb])]
  exact ⟨rfl, rfl⟩

/-- C8: the cancellation action on a layaway succeeds exactly when a
layaway with that id exists in state `"Apartado"` (Reserved) or
`"Pagado"` (Paid); on success the matching row moves to `"Cancelado"`
and every other row is unchanged; invoked on an existing layaway in
state `"Entregado"` or already `"Cancelado"` (ids unique, per the
PRIMARY KEY) it fails with the 400 rejection and leaves the store
unchanged. -/
theorem c8_cancelar_characterization :
    (∀ (db : DB) (id : Nat),
      ((cancelarApartado id db).1 = .cancelado ↔
        ∃ ap ∈ db.apartados, ap.id = id ∧
          (ap.estadoApartado = "Apartado" ∨ ap.estadoApartado = "Pagado")))
    ∧ (∀ (db : DB) (id : Nat) (i : Nat) (ap : Apartado),
      db.apartados[i]? = some ap →
      (cancelarApartado id db).1 = .cancelado →
      (cancelarApartado id db).2.apartados[i]? =
        some (if ap.id = id ∧ (ap.estadoApartado = "Apartado" ∨ ap.estadoApartado = "Pagado") then
          { ap with estadoApartado := "Cancelado" } else ap))
    ∧ (∀ (db : DB) (id : Nat) (ap : Apartado),
      db.apartados.find? (fun w => w.id == id) = some ap →
      (ap.estadoApartado = "Entregado" ∨ ap.estadoApartado = "Cancelado") →
      (db.apartados.map (fun w => w.id)).Nodup →
      ap.estadoApartado ≠ "Apartado" → ap.estadoApartado ≠ "Pagado" →
      (cancelarApartado id db).1 = .noCancelable ∧ (cancelarApartado id db).2 = db) := by
  refine ⟨?_, ?_, ?_⟩
  · intro db id
    by_cases h : db.apartados.filter (fun ap => ap.id == id &&
        (ap.estadoApartado == "Apartado" || ap.estadoApartado == "Pagado")) = []
    · constructor
      · intro hres
        rw [(cancelarApartado_no_match db id h).1] at hres
        exact absurd hres (fun hr => CancelarResult.noConfusion hr)
      · rintro ⟨ap, hmem, hid, hest⟩
        exfalso
        have hf : ap ∈ db.apartados.filter (fun ap => ap.id == id &&
            (ap.estadoApartado == "Apartado" || ap.estadoApartado == "Pagado")) :=
          List.mem_filter.mpr ⟨hmem, by rcases hest with he | he <;> simp [hid, he]⟩
        rw [h] at hf; cases hf
    · constructor
      · intro _
        obtain ⟨ap, hap⟩ := List.exists_mem_of_ne_nil _ h
        have hm := List.mem_filter.mp hap
        have hp : ap.id = id ∧ (ap.estadoApartado = "Apartado" ∨ ap.estadoApartado = "Pagado") := by
          simpa using hm.2
        exact ⟨ap, hm.1, hp.1, hp.2⟩
      · intro _; exact (cancelarApartado_match db id h).1
  · intro db id i ap hi hres
    by_cases h : db.apartados.filter (fun ap => ap.id == id &&
        (ap.estadoApartado == "Apartado" || ap.estadoApartado == "Pagado")) = []
    · rw [(cancelarApartado_no_match db id h).1] at hres
      exact absurd hres (fun hr => CancelarResult.noConfusion hr)
    · rw [(cancelarApartado_match db id h).2]
      show (db.apartados.map _)[i]? = _
      rw [List.getElem?_map, hi]
      by_cases hc : ap.id = id ∧ (ap.estadoApartado = "Apartado" ∨ ap.estadoApartado = "Pagado")
      · rw [if_pos hc]
        simp only [Option.map_some']
        congr 1
        rw [if_pos (by rcases hc.2 with he | he <;> simp [hc.1, he])]
      · rw [if_neg hc]
        simp only [Option.map_some']
        congr 1
        rw [if_neg ?_]
        intro hb
        simp only [Bool.and_eq_true, Bool.or_eq_true, beq_iff_eq] at hb
        exact hc ⟨hb.1, hb.2⟩
  · intro db id ap hfind _ hnd hne1 hne2
    have hmem : ap ∈ db.apartados := List.mem_of_find?_eq_some hfind
    have hid : ap.id = id := by simpa using List.find?_some hfind
    have h : db.apartados.filter (fun ap => ap.id == id &&
        (ap.estadoApartado == "Apartado" || ap.estadoApartado == "Pagado")) = [] := by
      rw [List.filter_eq_nil_iff]
      intro w hw hpw
      simp only [Bool.and_eq_true, Bool.or_eq_true, beq_iff_eq] at hpw
      have hw_eq : w = ap :=
        List.inj_on_of_nodup_map hnd hw hmem (by rw [hpw.1, hid])
      rw [hw_eq] at hpw
      rcases hpw.2 with he | he
      · exact hne1 he
      · exact hne2 he
    exact cancelarApartado_no_match db id h

/-- C8 (witness): a delivered layaway rejects cancellation and is left
unchanged; a reserved one accepts it. -/
theorem c8_cancelar_characterization_witness :
    (cancelarApartado 1 ⟨[], [⟨1, 50, "Entregado", some "2026-01-05"⟩], []⟩).1 = .noCancelable
    ∧ (cancelarApartado 1 ⟨[], [⟨1, 50, "Entregado", some "2026-01-05"⟩], []⟩).2
      = ⟨[], [⟨1, 50, "Entregado", some "2026-01-05"⟩], []⟩
    ∧ (cancelarApartado 2 ⟨[], [⟨2, 70, "Apartado", none⟩], []⟩).1 = .cancelado := by
  have h3 := c8_cancelar_characterization.2.2 ⟨[], [⟨1, 50, "Entregado", some "2026-01-05"⟩], []⟩ 1
    ⟨1, 50, "Entregado", some "2026-01-05"⟩ rfl (Or.inl rfl) (by decide)
    (by decide) (by decide)
  refine ⟨h3.1, h3.2, ?_⟩
  exact (c8_cancelar_characterization.1 ⟨[], [⟨2, 70, "Apartado", none⟩], []⟩ 2).mpr
    ⟨⟨2, 70, "Apartado", none⟩, by decide, rfl, Or.inl rfl⟩

/-- C10: payment admission never consults the layaway's lifecycle
state: for a layaway in state `"Entregado"` or `"Cancelado"` with
positive outstanding balance, a validated payment within that balance is
admitted and the payment row is inserted. -/
theorem c10_admission_ignores_estado (db : DB) (aid : Nat) (ap : Apartado) (q : ℚ)
    (fecha : String) (com : Option String)
    (haid : aid ≠ 0)
    (hfind : db.apartados.find? (fun w => w.id == aid) = some ap)
    (hstate : ap.estadoApartado = "Entregado" ∨ ap.estadoApartado = "Cancelado")
    (hq : 0 < q) (hqle : q ≤ ap.montoTotal - totalAbonadoApartado db.abonos aid)
    (hfecha : fecha ≠ "") :
    (postAbono ⟨none, some aid, some (.fin q), some fecha, com⟩ db).1
      = .created ⟨none, some aid, q, fecha, com⟩
    ∧ (postAbono ⟨none, some aid, some (.fin q), some fecha, com⟩ db).2.1.abonos
      = db.abonos ++ [⟨none, some aid, q, fecha, com⟩] := by
  have hq' : ¬ q ≤ 0 := not_le.mpr hq
  have hf : (fecha != "") = true := bne_iff_ne.mpr hfecha
  have ha : (aid != 0) = true := bne_iff_ne.mpr haid
  have hnlt : ¬ (ap.montoTotal - totalAbonadoApartado db.abonos aid + eps < q) :=
    not_lt.mpr (le_trans hqle (le_add_of_nonneg_right (by norm_num [eps])))
  simp only [postAbono, truthyNat, truthyStr, hf, ha, Option.getD_some,
    JsNum.isNaNb, JsNum.leZero, JsNum.gtQ, hfind, Bool.not_true, Bool.not_false,
    Bool.and_false, Bool.false_and, Bool.and_true, Bool.true_and, Bool.or_false,
    Bool.false_or, decide_eq_true_eq, Option.some.injEq, if_false]
  simp only [decide_eq_false hq', Bool.or_self, Bool.false_eq_true, if_false,
    decide_eq_true_eq]
  rw [if_neg hnlt]
  rw [if_neg (show ¬ ((some (JsNum.fin q) == none) = true) from by simp), if_neg hq']
  exact ⟨apartadoInsert_fst _ _ _ _, apartadoInsert_abonos _ _ _ _⟩

/-- C10 (witness): a payment of 20 against a delivered layaway of total
50 with 10 already paid (outstanding balance 40) is admitted and
inserted. -/
theorem c10_admission_ignores_estado_witness :
    (postAbono ⟨none, some 1, some (.fin 20), some "2026-03-03", none⟩
       ⟨[], [⟨1, 50, "Entregado", some "2026-01-05"⟩],
        [⟨none, some 1, 10, "2026-01-02", none⟩]⟩).1
      = .created ⟨none, some 1, 20, "2026-03-03", none⟩
    ∧ (postAbono ⟨none, some 1, some (.fin 20), some "2026-03-03", none⟩
       ⟨[], [⟨1, 50, "Entregado", some "2026-01-05"⟩],
        [⟨none, some 1, 10, "2026-01-02", none⟩]⟩).2.1.abonos
      = [⟨none, some 1, 10, "2026-01-02", none⟩, ⟨none, some 1, 20, "2026-03-03", none⟩] :=
  c10_admission_ignores_estado
    ⟨[], [⟨1, 50, "Entregado", some "2026-01-05"⟩], [⟨none, some 1, 10, "2026-01-02", none⟩]⟩
    1 ⟨1, 50, "Entregado", some "2026-01-05"⟩ 20 "2026-03-03" none
    (by decide) (by decide) (Or.inl rfl) (by decide) (by decide) (by decide)

/-- The only balance-driven edge for a layaway row: either it is left
unchanged or, when currently `"Apartado"`, it is promoted to `"Pagado"`. -/
def pagadoStep (ap ap' : Apartado) : Prop :=
  ap' = ap ∨ (ap.estadoApartado = "Apartado" ∧ ap' = { ap with estadoApartado := "Pagado" })

theorem pagadoStep_trans {a b c : Apartado} (h1 : pagadoStep a b) (h2 : pagadoStep b c) :
    pagadoStep a c := by
  rcases h1 with rfl | ⟨ha, rfl⟩
  · exact h2
  · rcases h2 with rfl | ⟨hb, rfl⟩
    · exact Or.inr ⟨ha, rfl⟩
    · simp at hb

theorem pagadoStep_setPagado (aid : Nat) (ap : Apartado) :
    pagadoStep ap (if ap.id == aid && ap.estadoApartado == "Apartado" then
      { ap with estadoApartado := "Pagado" } else ap) := by
  by_cases h : (ap.id == aid && ap.estadoApartado == "Apartado") = true
  · rw [if_pos h]
    simp only [Bool.and_eq_true, beq_iff_eq] at h
    exact Or.inr ⟨h.2, rfl⟩
  · rw [if_neg h]
    exact Or.inl rfl

theorem apartadoSetPagado_getElem? (aid : Nat) (l : List Apartado) (i : Nat) :
    (apartadoSetPagado aid l)[i]? = l[i]?.map (fun ap =>
      if ap.id == aid && ap.estadoApartado == "Apartado" then
        { ap with estadoApartado := "Pagado" } else ap) := by
  unfold apartadoSetPagado
  exact List.getElem?_map _ _ _

/-- Pointwise effect of the `GET /api/apartados` write-back fold: every
row either stays put or moves `"Apartado"` to `"Pagado"`. -/
theorem foldl_apartados_pointwise (abonos : List Abono) :
    ∀ (l : List Apartado) (acc : List Apartado × List Nat) (i : Nat) (ap : Apartado),
      acc.1[i]? = some ap →
      ∃ ap', (List.foldl (apartadosReconcileStep abonos) acc l).1[i]? = some ap' ∧
        pagadoStep ap ap' := by
  intro l
  induction l with
  | nil => exact fun acc i ap h => ⟨ap, h, Or.inl rfl⟩
  | cons orig rest ih =>
    intro acc i ap h
    obtain ⟨b, hb1, hb2⟩ : ∃ b, (apartadosReconcileStep abonos acc orig).1[i]? = some b ∧
        pagadoStep ap b := by
      unfold apartadosReconcileStep
      by_cases hc : apartadoCond abonos orig = true
      · rw [if_pos hc]
        refine ⟨_, ?_, pagadoStep_setPagado orig.id ap⟩
        show (apartadoSetPagado orig.id acc.1)[i]? = _
        rw [apartadoSetPagado_getElem?, h, Option.map_some']
      · rw [if_neg hc]
        exact ⟨ap, h, Or.inl rfl⟩
    obtain ⟨c, hc1, hc2⟩ := ih (apartadosReconcileStep abonos acc orig) i b hb1
    exact ⟨c, by rw [List.foldl_cons]; exact hc1, pagadoStep_trans hb2 hc2⟩

/-- The apartados table after `POST /api/abonos`: either untouched, or
rewritten by the guarded `'Pagado'` status UPDATE. -/
theorem postAbono_apartados_shape (req : AbonoReq) (db : DB) :
    (postAbono req db).2.1.apartados = db.apartados ∨
    ∃ aid, (postAbono req db).2.1.apartados = apartadoSetPagado aid db.apartados := by
  unfold postAbono
  split
  · exact Or.inl rfl
  · split
    · exact Or.inl rfl
    · split
      · exact Or.inl rfl
      · split
        · split
          · exact Or.inl rfl
          · split
            · exact Or.inl rfl
            · exact Or.inl (ventaInsert_apartados _ _ _ _)
        · split
          · exact Or.inl rfl
          · split
            · exact Or.inl rfl
            · rcases apartadoInsert_apartados db (req.apartadoId.getD 0) _ _ with h | h
              · exact Or.inl h
              · exact Or.inr ⟨req.apartadoId.getD 0, h⟩

/-- C6: balance-driven reconciliation — the write-back of
`GET /api/apartados` and the post-payment status update of
`POST /api/abonos` — only ever performs the `"Apartado"` (Reserved) →
`"Pagado"` (Paid) transition: whenever a layaway's stored status differs
after either operation, it was `"Apartado"` before and is `"Pagado"`
after; in particular layaways in `"Entregado"`, `"Cancelado"`, or in
`"Pagado"` with a positive balance are never moved. -/
theorem c6_reconcile_only_pagado :
    (∀ (db : DB) (i : Nat) (ap ap' : Apartado),
      db.apartados[i]? = some ap →
      (getApartados db).2.1.apartados[i]? = some ap' →
      ap'.estadoApartado ≠ ap.estadoApartado →
      ap.estadoApartado = "Apartado" ∧ ap'.estadoApartado = "Pagado")
    ∧ (∀ (db : DB) (req : AbonoReq) (i : Nat) (ap ap' : Apartado),
      db.apartados[i]? = some ap →
      (postAbono req db).2.1.apartados[i]? = some ap' →
      ap'.estadoApartado ≠ ap.estadoApartado →
      ap.estadoApartado = "Apartado" ∧ ap'.estadoApartado = "Pagado") := by
  constructor
  · intro db i ap ap' h1 h2 hne
    obtain ⟨b, hb1, hb2⟩ :=
      foldl_apartados_pointwise db.abonos db.apartados (db.apartados, []) i ap h1
    have h2' : (List.foldl (apartadosReconcileStep db.abonos)
        (db.apartados, []) db.apartados).1[i]? = some ap' := h2
    rw [hb1] at h2'
    have hba : b = ap' := Option.some.inj h2'
    subst hba
    rcases hb2 with rfl | ⟨hA, rfl⟩
    · exact absurd rfl hne
    · exact ⟨hA, rfl⟩
  · intro db req i ap ap' h1 h2 hne
    rcases postAbono_apartados_shape req db with h | ⟨aid, h⟩
    · rw [h, h1] at h2
      cases Option.some.inj h2
      exact absurd rfl hne
    · rw [h, apartadoSetPagado_getElem?, h1, Option.map_some'] at h2
      have heq := Option.some.inj h2
      by_cases hc : (ap.id == aid && ap.estadoApartado == "Apartado") = true
      · rw [if_pos hc] at heq
        simp only [Bool.and_eq_true, beq_iff_eq] at hc
        exact ⟨hc.2, by rw [← heq]⟩
      · rw [if_neg hc] at heq
        cases heq
        exact absurd rfl hne

/-- C6 (witness): a fully paid layaway still in `"Apartado"` is promoted
to `"Pagado"` by the list-read reconciliation, instantiating the
characterization at a concrete store. -/
theorem c6_reconcile_only_pagado_witness :
    (⟨1, 50, "Apartado", none⟩ : Apartado).estadoApartado = "Apartado" ∧
    (⟨1, 50, "Pagado", none⟩ : Apartado).estadoApartado = "Pagado" :=
  c6_reconcile_only_pagado.1
    ⟨[], [⟨1, 50, "Apartado", none⟩], [⟨none, some 1, 50, "2026-01-02", none⟩]⟩
    0 ⟨1, 50, "Apartado", none⟩ ⟨1, 50, "Pagado", none⟩
    (by decide) (by decide) (by decide)

theorem totalAbonadoVenta_append (abonos : List Abono) (a : Abono) (vid : Nat) :
    totalAbonadoVenta (abonos ++ [a]) vid =
      totalAbonadoVenta abonos vid + (if a.ventaId == some vid then a.monto else 0) := by
  unfold totalAbonadoVenta
  by_cases hp : (a.ventaId == some vid) = true <;>
    simp [List.filter_append, hp]

theorem totalAbonadoApartado_append (abonos : List Abono) (a : Abono) (aid : Nat) :
    totalAbonadoApartado (abonos ++ [a]) aid =
      totalAbonadoApartado abonos aid + (if a.apartadoId == some aid then a.monto else 0) := by
  unfold totalAbonadoApartado
  by_cases hp : (a.apartadoId == some aid) = true <;>
    simp [List.filter_append, hp]

theorem ventaSetPagada_ids (vid : Nat) (l : List Venta) :
    (ventaSetPagada vid l).map (fun v => v.id) = l.map (fun v => v.id) := by
  unfold ventaSetPagada
  rw [List.map_map]
  exact List.map_congr_left (fun w _ => by
    by_cases hc : (w.id == vid) = true <;> simp [hc, Function.comp])

theorem apartadoSetPagado_ids (aid : Nat) (l : List Apartado) :
    (apartadoSetPagado aid l).map (fun ap => ap.id) = l.map (fun ap => ap.id) := by
  unfold apartadoSetPagado
  rw [List.map_map]
  exact List.map_congr_left (fun w _ => by
    by_cases hc : (w.id == aid && w.estadoApartado == "Apartado") = true <;>
      simp [hc, Function.comp])

theorem mem_ventaSetPagada {w : Venta} {vid : Nat} {l : List Venta}
    (h : w ∈ ventaSetPagada vid l) :
    ∃ w0 ∈ l, w.id = w0.id ∧ w.monto = w0.monto := by
  unfold ventaSetPagada at h
  obtain ⟨w0, hw0, hmap⟩ := List.mem_map.mp h
  refine ⟨w0, hw0, ?_⟩
  by_cases hc : (w0.id == vid) = true
  · rw [if_pos hc] at hmap; rw [← hmap]; exact ⟨rfl, rfl⟩
  · rw [if_neg hc] at hmap; rw [← hmap]; exact ⟨rfl, rfl⟩

theorem mem_apartadoSetPagado {ap : Apartado} {aid : Nat} {l : List Apartado}
    (h : ap ∈ apartadoSetPagado aid l) :
    ∃ ap0 ∈ l, ap.id = ap0.id ∧ ap.montoTotal = ap0.montoTotal := by
  unfold apartadoSetPagado at h
  obtain ⟨ap0, hap0, hmap⟩ := List.mem_map.mp h
  refine ⟨ap0, hap0, ?_⟩
  by_cases hc : (ap0.id == aid && ap0.estadoApartado == "Apartado") = true
  · rw [if_pos hc] at hmap; rw [← hmap]; exact ⟨rfl, rfl⟩
  · rw [if_neg hc] at hmap; rw [← hmap]; exact ⟨rfl, rfl⟩

/-- With unique ids (the PRIMARY KEY), any member sharing the id of the
row `find?` returned is that row itself. -/
theorem venta_find_eq {l : List Venta} (hnd : (l.map (fun v => v.id)).Nodup)
    {vid : Nat} {v w : Venta}
    (hfind : l.find? (fun x => x.id == vid) = some v) (hw : w ∈ l) (hid : w.id = vid) :
    w = v := by
  have hv : v ∈ l := List.mem_of_find?_eq_some hfind
  have hvid : v.id = vid := by simpa using List.find?_some hfind
  exact List.inj_on_of_nodup_map hnd hw hv (by rw [hid, hvid])

theorem apartado_find_eq {l : List Apartado} (hnd : (l.map (fun ap => ap.id)).Nodup)
    {aid : Nat} {ap w : Apartado}
    (hfind : l.find? (fun x => x.id == aid) = some ap) (hw : w ∈ l) (hid : w.id = aid) :
    w = ap := by
  have hv : ap ∈ l := List.mem_of_find?_eq_some hfind
  have hvid : ap.id = aid := by simpa using List.find?_some hfind
  exact List.inj_on_of_nodup_map hnd hw hv (by rw [hid, hvid])

theorem ventaInsert_ventas (db : DB) (refId : Nat) (v : Venta) (a : Abono) :
    (ventaInsert db refId v a).2.1.ventas = db.ventas ∨
    (ventaInsert db refId v a).2.1.ventas = ventaSetPagada refId db.ventas := by
  unfold ventaInsert; split
  · exact Or.inr rfl
  · exact Or.inl rfl

/-- Outcome shapes of `POST /api/abonos` on the store: either it is an
error path leaving the store untouched, or it admits the payment against
a found venta (resp. apartado), in which case the admission test passed,
exactly the one row is appended, and the only other change is the
(possible) status write on the parent's table. -/
theorem postAbono_db_shape (req : AbonoReq) (db : DB) :
    (postAbono req db).2.1 = db
    ∨ (∃ (v : Venta) (q : ℚ),
        db.ventas.find? (fun w => w.id == req.ventaId.getD 0) = some v ∧
        ¬ (v.monto - totalAbonadoVenta db.abonos (req.ventaId.getD 0) + eps < q) ∧
        (postAbono req db).2.1.abonos = db.abonos ++
          [⟨some (req.ventaId.getD 0), none, q, req.fecha.getD "", req.comentarios⟩] ∧
        ((postAbono req db).2.1.ventas = db.ventas ∨
         (postAbono req db).2.1.ventas = ventaSetPagada (req.ventaId.getD 0) db.ventas) ∧
        (postAbono req db).2.1.apartados = db.apartados)
    ∨ (∃ (ap : Apartado) (q : ℚ),
        db.apartados.find? (fun w => w.id == req.apartadoId.getD 0) = some ap ∧
        ¬ (ap.montoTotal - totalAbonadoApartado db.abonos (req.apartadoId.getD 0) + eps < q) ∧
        (postAbono req db).2.1.abonos = db.abonos ++
          [⟨none, some (req.apartadoId.getD 0), q, req.fecha.getD "", req.comentarios⟩] ∧
        (postAbono req db).2.1.ventas = db.ventas ∧
        ((postAbono req db).2.1.apartados = db.apartados ∨
         (postAbono req db).2.1.apartados = apartadoSetPagado (req.apartadoId.getD 0) db.apartados)) := by
  unfold postAbono
  split
  · exact Or.inl rfl
  · split
    · exact Or.inl rfl
    · split
      · exact Or.inl rfl
      · split
        · split
          · exact Or.inl rfl
          · split
            · exact Or.inl rfl
            · rename_i hc1 hc2 hval ht v heq hgt
              cases hm : req.monto.getD JsNum.nan with
              | nan => rw [hm] at hc2; exact absurd rfl hc2
              | negInf => rw [hm] at hc2; exact absurd rfl hc2
              | posInf => rw [hm] at hgt; exact absurd rfl hgt
              | fin q =>
                rw [hm] at hgt
                simp only [JsNum.gtQ, decide_eq_true_eq] at hgt
                exact Or.inr (Or.inl ⟨v, q, heq, hgt,
                  ventaInsert_abonos _ _ _ _, ventaInsert_ventas _ _ _ _,
                  ventaInsert_apartados _ _ _ _⟩)
        · split
          · exact Or.inl rfl
          · split
            · exact Or.inl rfl
            · rename_i hc1 hc2 hval ht ap heq hgt
              cases hm : req.monto.getD JsNum.nan with
              | nan => rw [hm] at hc2; exact absurd rfl hc2
              | negInf => rw [hm] at hc2; exact absurd rfl hc2
              | posInf => rw [hm] at hgt; exact absurd rfl hgt
              | fin q =>
                rw [hm] at hgt
                simp only [JsNum.gtQ, decide_eq_true_eq] at hgt
                exact Or.inr (Or.inr ⟨ap, q, heq, hgt,
                  apartadoInsert_abonos _ _ _ _, apartadoInsert_ventas _ _ _ _,
                  apartadoInsert_apartados _ _ _ _⟩)

theorem postAbono_idsNodup (req : AbonoReq) (db : DB) (h : idsNodup db) :
    idsNodup (postAbono req db).2.1 := by
  rcases postAbono_db_shape req db with heq | ⟨v, q, _, _, _, hv, hap⟩ | ⟨ap, q, _, _, _, hv, hap⟩
  · rw [heq]; exact h
  · constructor
    · rcases hv with hv | hv <;> rw [hv]
      · exact h.1
      · rw [ventaSetPagada_ids]; exact h.1
    · rw [hap]; exact h.2
  · constructor
    · rw [hv]; exact h.1
    · rcases hap with hap | hap <;> rw [hap]
      · exact h.2
      · rw [apartadoSetPagado_ids]; exact h.2

theorem postAbono_balanceInv (req : AbonoReq) (db : DB) (hnd : idsNodup db)
    (hinv : balanceInv db) : balanceInv (postAbono req db).2.1 := by
  rcases postAbono_db_shape req db with heq | ⟨v, q, hfind, hle, hab, hv, hap⟩
    | ⟨ap, q, hfind, hle, hab, hv, hap⟩
  · rw [heq]; exact hinv
  · constructor
    · intro w hw
      rw [hab, totalAbonadoVenta_append]
      have hmem : ∃ w0 ∈ db.ventas, w.id = w0.id ∧ w.monto = w0.monto := by
        rcases hv with hv | hv
        · rw [hv] at hw; exact ⟨w, hw, rfl, rfl⟩
        · rw [hv] at hw; exact mem_ventaSetPagada hw
      obtain ⟨w0, hw0, hid, hmonto⟩ := hmem
      by_cases hcase : w.id = req.ventaId.getD 0
      · have hw0v : w0 = v := venta_find_eq hnd.1 hfind hw0 (by rw [← hid, hcase])
        rw [if_pos (by simp [hcase])]
        rw [hcase, hmonto, hw0v]
        have hle' := not_lt.mp hle
        linarith
      · rw [if_neg (by simp; exact fun hh => hcase hh.symm), add_zero]
        rw [hid, hmonto]
        exact hinv.1 w0 hw0
    · intro ap2 hap2
      rw [hab, totalAbonadoApartado_append]
      rw [hap] at hap2
      rw [if_neg (by simp), add_zero]
      exact hinv.2 ap2 hap2
  · constructor
    · intro w hw
      rw [hab, totalAbonadoVenta_append]
      rw [hv] at hw
      rw [if_neg (by simp), add_zero]
      exact hinv.1 w hw
    · intro ap2 hap2
      rw [hab, totalAbonadoApartado_append]
      have hmem : ∃ a0 ∈ db.apartados, ap2.id = a0.id ∧ ap2.montoTotal = a0.montoTotal := by
        rcases hap with hap | hap
        · rw [hap] at hap2; exact ⟨ap2, hap2, rfl, rfl⟩
        · rw [hap] at hap2; exact mem_apartadoSetPagado hap2
      obtain ⟨a0, ha0, hid, hmonto⟩ := hmem
      by_cases hcase : ap2.id = req.apartadoId.getD 0
      · have ha0ap : a0 = ap := apartado_find_eq hnd.2 hfind ha0 (by rw [← hid, hcase])
        rw [if_pos (by simp [hcase])]
        rw [hcase, hmonto, ha0ap]
        have hle' := not_lt.mp hle
        linarith
      · rw [if_neg (by simp; exact fun hh => hcase hh.symm), add_zero]
        rw [hid, hmonto]
        exact hinv.2 a0 ha0

/-- C2: under sequential single-writer execution, the balance invariant
— for every sale and layaway, the payments referencing it sum to at most
its total plus 0.001 — is preserved by every `POST /api/abonos` request
(admitted or rejected), and hence holds after every sequence of such
requests, on any well-formed store (unique ids) where it held
initially. -/
theorem c2_balance_invariant :
    (∀ (req : AbonoReq) (db : DB), idsNodup db → balanceInv db →
      balanceInv (postAbono req db).2.1)
    ∧ (∀ (reqs : List AbonoReq) (db : DB), idsNodup db → balanceInv db →
      balanceInv (reqs.foldl (fun d r => (postAbono r d).2.1) db)) := by
  refine ⟨fun req db hnd hinv => postAbono_balanceInv req db hnd hinv, ?_⟩
  intro reqs
  induction reqs with
  | nil => intro db _ hinv; simpa using hinv
  | cons r rest ih =>
    intro db hnd hinv
    rw [List.foldl_cons]
    exact ih _ (postAbono_idsNodup r db hnd) (postAbono_balanceInv r db hnd hinv)

/-- C2 (witness): the invariant holds after admitting a payment of 60
against a sale of 100 with 40 already paid. -/
theorem c2_balance_invariant_witness :
    balanceInv (postAbono ⟨some 1, none, some (.fin 60), some "2026-01-03", none⟩
      ⟨[⟨1, 100, "2026-01-01", "Pendiente"⟩], [⟨2, 50, "Apartado", none⟩],
       [⟨some 1, none, 40, "2026-01-02", none⟩]⟩).2.1 :=
  c2_balance_invariant.1 ⟨some 1, none, some (.fin 60), some "2026-01-03", none⟩
    ⟨[⟨1, 100, "2026-01-01", "Pendiente"⟩], [⟨2, 50, "Apartado", none⟩],
     [⟨some 1, none, 40, "2026-01-02", none⟩]⟩ (by decide) (by decide)

theorem list_map_eq_self {α : Type} {l : List α} {f : α → α} (h : ∀ x ∈ l, f x = x) :
    l.map f = l := by
  induction l with
  | nil => rfl
  | cons a t ih =>
    rw [List.map_cons, h a (List.mem_cons_self a t),
      ih (fun x hx => h x (List.mem_cons_of_mem _ hx))]

theorem mem_of_getElem?_list {α : Type} {l : List α} {i : Nat} {a : α}
    (h : l[i]? = some a) : a ∈ l := by
  obtain ⟨hlt, rfl⟩ := List.getElem?_eq_some.mp h
  exact List.getElem_mem hlt

/-- The per-row effect of one venta status UPDATE on one stored row. -/
def ventaRowUpd (r : VentaRow) (w : Venta) : Venta :=
  if w.id == r.id && w.estado != r.estado then { w with estado := r.estado } else w

theorem foldl_ventas_fst (rs : List VentaRow) :
    ∀ (vs : List Venta) (ws : List (Nat × String)),
      (rs.foldl ventasReconcileStep (vs, ws)).1 =
        vs.map (fun w => rs.foldl (fun x r => ventaRowUpd r x) w) := by
  induction rs with
  | nil => intro vs ws; simp
  | cons r rest ih =>
    intro vs ws
    rw [List.foldl_cons]
    have hstep : ventasReconcileStep (vs, ws) r =
        (vs.map (ventaRowUpd r),
         ws ++ if (updateVentaEstado r.estado r.id vs).2 != 0 then [(r.id, r.estado)] else []) := rfl
    rw [hstep, ih]
    rw [List.map_map]
    exact List.map_congr_left (fun w _ => by simp [Function.comp, List.foldl_cons])

theorem foldl_ventaRowUpd_skip (rs : List VentaRow) (w : Venta)
    (h : ∀ r ∈ rs, r.id ≠ w.id) :
    rs.foldl (fun x r => ventaRowUpd r x) w = w := by
  induction rs with
  | nil => rfl
  | cons r rest ih =>
    rw [List.foldl_cons]
    have hu : ventaRowUpd r w = w := by
      unfold ventaRowUpd
      rw [if_neg ?_]
      simp only [Bool.and_eq_true, beq_iff_eq]
      rintro ⟨h1, _⟩
      exact h r (List.mem_cons_self _ _) h1.symm
    rw [hu]
    exact ih (fun r' hr' => h r' (List.mem_cons_of_mem _ hr'))

theorem ventaRowUpd_self (abonos : List Abono) (w : Venta) :
    ventaRowUpd (enrichVenta abonos w) w =
      { w with estado := (enrichVenta abonos w).estado } := by
  by_cases hc : (w.estado != (enrichVenta abonos w).estado) = true
  · have hcond : (w.id == (enrichVenta abonos w).id &&
        w.estado != (enrichVenta abonos w).estado) = true := by
      simp only [enrichVenta, beq_self_eq_true, Bool.true_and]
      simpa only [enrichVenta] using hc
    unfold ventaRowUpd
    rw [if_pos hcond]
  · have he : w.estado = (enrichVenta abonos w).estado := by simpa using hc
    unfold ventaRowUpd
    rw [if_neg (by simp [hc])]
    cases w with
    | mk wid wm wf we => rw [← he]

theorem foldl_enrich_ventas (abonos : List Abono) (vs : List Venta) (w : Venta)
    (hnd : (vs.map (fun v => v.id)).Nodup) (hw : w ∈ vs) :
    (vs.map (enrichVenta abonos)).foldl (fun x r => ventaRowUpd r x) w
      = { w with estado := (enrichVenta abonos w).estado } := by
  obtain ⟨s, t, rfl⟩ := List.append_of_mem hw
  rw [List.map_append] at hnd ⊢
  rw [List.map_cons] at hnd ⊢
  rw [List.foldl_append, List.foldl_cons]
  have hdisj := List.disjoint_of_nodup_append hnd
  have hnotmem : w.id ∉ t.map (fun v => v.id) := (List.nodup_cons.mp hnd.of_append_right).1
  have hs : ∀ r ∈ s.map (enrichVenta abonos), r.id ≠ w.id := by
    intro r hr
    obtain ⟨v', hv', rfl⟩ := List.mem_map.mp hr
    show v'.id ≠ w.id
    intro hEq
    exact hdisj (List.mem_map.mpr ⟨v', hv', rfl⟩) (by rw [← hEq] at hnotmem ⊢; exact List.mem_cons_self _ _)
  rw [foldl_ventaRowUpd_skip _ _ hs, ventaRowUpd_self]
  refine foldl_ventaRowUpd_skip _ _ ?_
  intro r hr
  obtain ⟨v', hv', rfl⟩ := List.mem_map.mp hr
  show v'.id ≠ w.id
  intro hEq
  exact hnotmem (by rw [← hEq]; exact List.mem_map.mpr ⟨v', hv', rfl⟩)

/-- Under unique ids, the `GET /api/ventas` write-back leaves every
sale's stored status equal to its balance-derived status, all other
columns untouched. -/
theorem getVentas_ventas (db : DB) (hnd : (db.ventas.map (fun v => v.id)).Nodup) :
    (getVentas db).2.1.ventas = db.ventas.map (fun v =>
      { v with estado := (enrichVenta db.abonos v).estado }) := by
  show (List.foldl ventasReconcileStep (db.ventas, [])
    (db.ventas.map (enrichVenta db.abonos))).1 = _
  rw [foldl_ventas_fst]
  exact List.map_congr_left (fun v hv => foldl_enrich_ventas db.abonos db.ventas v hnd hv)

/-- C5: on every list-read of sales (ids unique, per the PRIMARY KEY),
each returned record carries the balance-derived status together with
the computed `totalAbonado` and `saldoPendiente`, and each sale's stored
status is transitioned to that derived status — `"Pagada"` when the
outstanding balance is at most 0.001, `"Pendiente"` otherwise — with all
other columns unchanged. -/
theorem c5_ventas_read_reconcile (db : DB)
    (hnd : (db.ventas.map (fun v => v.id)).Nodup)
    (i : Nat) (v : Venta) (hi : db.ventas[i]? = some v) :
    (getVentas db).1[i]? = some ⟨v.id, v.monto,
        (if v.monto - totalAbonadoVenta db.abonos v.id ≤ eps then "Pagada" else "Pendiente"),
        totalAbonadoVenta db.abonos v.id, v.monto - totalAbonadoVenta db.abonos v.id⟩
    ∧ (getVentas db).2.1.ventas[i]? = some { v with estado :=
        (if v.monto - totalAbonadoVenta db.abonos v.id ≤ eps then "Pagada" else "Pendiente") } := by
  constructor
  · show (db.ventas.map (enrichVenta db.abonos))[i]? = _
    rw [List.getElem?_map, hi, Option.map_some']
    rfl
  · rw [getVentas_ventas db hnd, List.getElem?_map, hi, Option.map_some']
    rfl

/-- C5 (witness): a concrete two-sale store, one fully paid and one
not, read-reconciled at index 0. -/
theorem c5_ventas_read_reconcile_witness :
    (getVentas ⟨[⟨1, 100, "2026-01-01", "Pendiente"⟩, ⟨2, 80, "2026-01-01", "Pendiente"⟩],
        [], [⟨some 1, none, 100, "2026-01-02", none⟩]⟩).1[0]?
      = some ⟨1, 100, "Pagada", 100, 0⟩
    ∧ (getVentas ⟨[⟨1, 100, "2026-01-01", "Pendiente"⟩, ⟨2, 80, "2026-01-01", "Pendiente"⟩],
        [], [⟨some 1, none, 100, "2026-01-02", none⟩]⟩).2.1.ventas[0]?
      = some ⟨1, 100, "2026-01-01", "Pagada"⟩ := by
  have h := c5_ventas_read_reconcile
    ⟨[⟨1, 100, "2026-01-01", "Pendiente"⟩, ⟨2, 80, "2026-01-01", "Pendiente"⟩],
     [], [⟨some 1, none, 100, "2026-01-02", none⟩]⟩ (by decide) 0
    ⟨1, 100, "2026-01-01", "Pendiente"⟩ rfl
  exact ⟨h.1.trans (by decide), h.2.trans (by decide)⟩

theorem updateVentaEstado_nop (r : VentaRow) (vs : List Venta)
    (h : ∀ w ∈ vs, w.id = r.id → w.estado = r.estado) :
    updateVentaEstado r.estado r.id vs = (vs, 0) := by
  unfold updateVentaEstado
  have hcond : ∀ w ∈ vs, (w.id == r.id && w.estado != r.estado) = false := by
    intro w hw
    by_cases hid : w.id = r.id
    · have := h w hw hid
      simp [this]
    · simp [hid]
  refine Prod.ext ?_ ?_
  · show vs.map _ = vs
    refine list_map_eq_self (fun w hw => ?_)
    rw [hcond w hw]
    rfl
  · show (vs.filter _).length = 0
    rw [List.length_eq_zero, List.filter_eq_nil_iff]
    intro w hw
    rw [hcond w hw]
    exact Bool.noConfusion

theorem foldl_ventas_nop (rs : List VentaRow) :
    ∀ (vs : List Venta) (ws : List (Nat × String)),
    (∀ r ∈ rs, ∀ w ∈ vs, w.id = r.id → w.estado = r.estado) →
    rs.foldl ventasReconcileStep (vs, ws) = (vs, ws) := by
  induction rs with
  | nil => intro vs ws _; rfl
  | cons r rest ih =>
    intro vs ws h
    rw [List.foldl_cons]
    have hstep : ventasReconcileStep (vs, ws) r = (vs, ws) := by
      unfold ventasReconcileStep
      rw [updateVentaEstado_nop r vs (h r (List.mem_cons_self _ _))]
      simp
    rw [hstep]
    exact ih vs ws (fun r' hr' => h r' (List.mem_cons_of_mem _ hr'))

/-- The enriched row of a sale does not depend on its stored status. -/
theorem enrichVenta_estado_irrel (abonos : List Abono) (v : Venta) (t : String) :
    enrichVenta abonos { v with estado := t } = enrichVenta abonos v := rfl

/-- Second-run stability: after one `GET /api/ventas` reconciliation,
every stored status already equals its recomputed target. -/
theorem getVentas_stable (db : DB) (hnd : (db.ventas.map (fun v => v.id)).Nodup) :
    ∀ r ∈ (getVentas db).2.1.ventas.map (enrichVenta (getVentas db).2.1.abonos),
    ∀ w ∈ (getVentas db).2.1.ventas, w.id = r.id → w.estado = r.estado := by
  intro r hr w hw hid
  rw [getVentas_ventas db hnd] at hr hw
  have hab : (getVentas db).2.1.abonos = db.abonos := rfl
  rw [hab] at hr
  rw [List.map_map] at hr
  obtain ⟨v', hv', rfl⟩ := List.mem_map.mp hr
  obtain ⟨v, hv, rfl⟩ := List.mem_map.mp hw
  have hid' : v.id = v'.id := hid
  have hvv : v = v' := List.inj_on_of_nodup_map hnd hv hv' hid'
  subst hvv
  rfl

/-- The per-row effect of the guarded `'Pagado'` UPDATE on one row. -/
def apartadoUpd (aid : Nat) (x : Apartado) : Apartado :=
  if x.id == aid && x.estadoApartado == "Apartado" then
    { x with estadoApartado := "Pagado" } else x

theorem apartadoSetPagado_eq (aid : Nat) (l : List Apartado) :
    apartadoSetPagado aid l = l.map (apartadoUpd aid) := rfl

theorem apartadosReconcileStep_fst (abonos : List Abono)
    (acc : List Apartado × List Nat) (orig : Apartado) :
    (apartadosReconcileStep abonos acc orig).1 =
      acc.1.map (fun y => if apartadoCond abonos orig then apartadoUpd orig.id y else y) := by
  unfold apartadosReconcileStep
  by_cases hc : apartadoCond abonos orig = true
  · rw [if_pos hc]
    show apartadoSetPagado orig.id acc.1 = _
    rw [apartadoSetPagado_eq]
    exact List.map_congr_left (fun y _ => by rw [if_pos hc])
  · rw [if_neg hc]
    show acc.1 = _
    symm
    exact list_map_eq_self (fun y _ => by rw [if_neg hc])

theorem foldl_apartados_fst (abonos : List Abono) (os : List Apartado) :
    ∀ (aps : List Apartado) (ws : List Nat),
      (os.foldl (apartadosReconcileStep abonos) (aps, ws)).1 =
        aps.map (fun x => os.foldl (fun y orig =>
          if apartadoCond abonos orig then apartadoUpd orig.id y else y) x) := by
  induction os with
  | nil => intro aps ws; simp
  | cons o rest ih =>
    intro aps ws
    by_cases hc : apartadoCond abonos o = true
    · have hstep : apartadosReconcileStep abonos (aps, ws) o =
          (apartadoSetPagado o.id aps,
           ws ++ if apartadoPagadoChanges o.id aps != 0 then [o.id] else []) := by
        unfold apartadosReconcileStep; rw [if_pos hc]
      rw [List.foldl_cons, hstep, ih]
      rw [apartadoSetPagado_eq, List.map_map]
      exact List.map_congr_left (fun x _ => by
        rw [List.foldl_cons, if_pos hc]; rfl)
    · have hstep : apartadosReconcileStep abonos (aps, ws) o = (aps, ws) := by
        unfold apartadosReconcileStep; rw [if_neg hc]
      rw [List.foldl_cons, hstep, ih]
      exact List.map_congr_left (fun x _ => by rw [List.foldl_cons, if_neg hc])

theorem foldl_apartadoUpd_skip (abonos : List Abono) (os : List Apartado) (y : Apartado)
    (h : ∀ o ∈ os, o.id ≠ y.id) :
    os.foldl (fun z orig =>
      if apartadoCond abonos orig then apartadoUpd orig.id z else z) y = y := by
  induction os with
  | nil => rfl
  | cons o rest ih =>
    rw [List.foldl_cons]
    have hz : (if apartadoCond abonos o then apartadoUpd o.id y else y) = y := by
      split
      · unfold apartadoUpd
        rw [if_neg ?_]
        simp only [Bool.and_eq_true, beq_iff_eq]
        rintro ⟨h1, _⟩
        exact h o (List.mem_cons_self _ _) h1.symm
      · rfl
    rw [hz]
    exact ih (fun o' ho' => h o' (List.mem_cons_of_mem _ ho'))

theorem apartado_g_self (abonos : List Abono) (x : Apartado) :
    (if apartadoCond abonos x then apartadoUpd x.id x else x)
      = { x with estadoApartado := (enrichApartado abonos x).estadoApartado } := by
  by_cases hin : (x.estadoApartado == "Apartado" &&
      decide (x.montoTotal - totalAbonadoApartado abonos x.id ≤ eps)) = true
  · have hd : (enrichApartado abonos x).estadoApartado = "Pagado" := by
      simp only [enrichApartado]
      rw [if_pos hin]
    have hA : x.estadoApartado = "Apartado" := by
      have h' := hin
      simp only [Bool.and_eq_true, beq_iff_eq] at h'
      exact h'.1
    have hcond : apartadoCond abonos x = true := by
      unfold apartadoCond
      rw [hd, hA]
      rfl
    rw [if_pos hcond]
    unfold apartadoUpd
    rw [if_pos (by rw [hA]; simp), hd]
  · have hd : (enrichApartado abonos x).estadoApartado = x.estadoApartado := by
      simp only [enrichApartado]
      rw [if_neg hin]
    have hcond : apartadoCond abonos x = false := by
      unfold apartadoCond
      rw [hd]
      simp
    rw [if_neg (by simp [hcond]), hd]

theorem foldl_enrich_apartados (abonos : List Abono) (vs : List Apartado) (x : Apartado)
    (hnd : (vs.map (fun a => a.id)).Nodup) (hx : x ∈ vs) :
    vs.foldl (fun y orig =>
      if apartadoCond abonos orig then apartadoUpd orig.id y else y) x
      = { x with estadoApartado := (enrichApartado abonos x).estadoApartado } := by
  obtain ⟨s, t, rfl⟩ := List.append_of_mem hx
  rw [List.map_append, List.map_cons] at hnd
  rw [List.foldl_append, List.foldl_cons]
  have hdisj := List.disjoint_of_nodup_append hnd
  have hnotmem : x.id ∉ t.map (fun a => a.id) := (List.nodup_cons.mp hnd.of_append_right).1
  have hs : ∀ o ∈ s, o.id ≠ x.id := by
    intro o ho hEq
    exact hdisj (List.mem_map.mpr ⟨o, ho, rfl⟩) (by rw [hEq]; exact List.mem_cons_self _ _)
  rw [foldl_apartadoUpd_skip abonos s x hs, apartado_g_self]
  refine foldl_apartadoUpd_skip abonos t _ ?_
  intro o ho hEq
  exact hnotmem (by rw [← hEq]; exact List.mem_map.mpr ⟨o, ho, rfl⟩)

/-- Under unique ids, the `GET /api/apartados` write-back leaves every
layaway's stored status equal to its recomputed status. -/
theorem getApartados_apartados (db : DB)
    (hnd : (db.apartados.map (fun a => a.id)).Nodup) :
    (getApartados db).2.1.apartados = db.apartados.map (fun x =>
      { x with estadoApartado := (enrichApartado db.abonos x).estadoApartado }) := by
  show (List.foldl (apartadosReconcileStep db.abonos)
    (db.apartados, []) db.apartados).1 = _
  rw [foldl_apartados_fst]
  exact List.map_congr_left (fun x hx => foldl_enrich_apartados db.abonos db.apartados x hnd hx)

theorem foldl_apartados_nop (abonos : List Abono) (os : List Apartado) :
    ∀ (acc : List Apartado × List Nat), (∀ o ∈ os, apartadoCond abonos o = false) →
    os.foldl (apartadosReconcileStep abonos) acc = acc := by
  induction os with
  | nil => intro acc _; rfl
  | cons o rest ih =>
    intro acc h
    rw [List.foldl_cons]
    have hstep : apartadosReconcileStep abonos acc o = acc := by
      unfold apartadosReconcileStep
      rw [if_neg (by simp [h o (List.mem_cons_self _ _)])]
    rw [hstep]
    exact ih acc (fun o' ho' => h o' (List.mem_cons_of_mem _ ho'))

/-- Second-run stability: after one `GET /api/apartados` reconciliation,
no row still triggers the write-issue test. -/
theorem getApartados_stable (db : DB)
    (hnd : (db.apartados.map (fun a => a.id)).Nodup) :
    ∀ o ∈ (getApartados db).2.1.apartados,
      apartadoCond (getApartados db).2.1.abonos o = false := by
  intro o ho
  rw [getApartados_apartados db hnd] at ho
  obtain ⟨x, hx, rfl⟩ := List.mem_map.mp ho
  have hab : (getApartados db).2.1.abonos = db.abonos := rfl
  rw [hab]
  have hE : (enrichApartado db.abonos
      { x with estadoApartado := (enrichApartado db.abonos x).estadoApartado }).estadoApartado
      = ({ x with estadoApartado := (enrichApartado db.abonos x).estadoApartado } : Apartado).estadoApartado := by
    show (if ((enrichApartado db.abonos x).estadoApartado == "Apartado" &&
        decide (x.montoTotal - totalAbonadoApartado db.abonos x.id ≤ eps)) = true
      then "Pagado" else (enrichApartado db.abonos x).estadoApartado)
      = (enrichApartado db.abonos x).estadoApartado
    by_cases hin : (x.estadoApartado == "Apartado" &&
        decide (x.montoTotal - totalAbonadoApartado db.abonos x.id ≤ eps)) = true
    · have hd : (enrichApartado db.abonos x).estadoApartado = "Pagado" := by
        simp only [enrichApartado]
        rw [if_pos hin]
      rw [hd]
      rw [if_neg (by simp)]
    · have hd : (enrichApartado db.abonos x).estadoApartado = x.estadoApartado := by
        simp only [enrichApartado]
        rw [if_neg hin]
      rw [hd]
      rw [if_neg hin]
  unfold apartadoCond
  rw [hE]
  simp

/-- C9: the read-reconciler is idempotent: running the
`GET /api/ventas` (resp. `GET /api/apartados`) reconciliation a second
time with no intervening payment change leaves the store exactly as
after the first run and performs no effective status write (empty write
list), on any store with unique ids. -/
theorem c9_reconciler_idempotent (db : DB) (hnd : idsNodup db) :
    ((getVentas (getVentas db).2.1).2.1 = (getVentas db).2.1 ∧
     (getVentas (getVentas db).2.1).2.2 = []) ∧
    ((getApartados (getApartados db).2.1).2.1 = (getApartados db).2.1 ∧
     (getApartados (getApartados db).2.1).2.2 = []) := by
  have hstab := getVentas_stable db hnd.1
  have hfold := foldl_ventas_nop
    ((getVentas db).2.1.ventas.map (enrichVenta (getVentas db).2.1.abonos))
    (getVentas db).2.1.ventas [] hstab
  have hstab2 := getApartados_stable db hnd.2
  have hfold2 := foldl_apartados_nop (getApartados db).2.1.abonos
    (getApartados db).2.1.apartados ((getApartados db).2.1.apartados, []) hstab2
  refine ⟨⟨?_, ?_⟩, ⟨?_, ?_⟩⟩
  · show { (getVentas db).2.1 with ventas :=
      (List.foldl ventasReconcileStep ((getVentas db).2.1.ventas, [])
        ((getVentas db).2.1.ventas.map (enrichVenta (getVentas db).2.1.abonos))).1 }
      = (getVentas db).2.1
    rw [hfold]
  · show (List.foldl ventasReconcileStep ((getVentas db).2.1.ventas, [])
        ((getVentas db).2.1.ventas.map (enrichVenta (getVentas db).2.1.abonos))).2 = []
    rw [hfold]
  · show { (getApartados db).2.1 with apartados :=
      (List.foldl (apartadosReconcileStep (getApartados db).2.1.abonos)
        ((getApartados db).2.1.apartados, []) (getApartados db).2.1.apartados).1 }
      = (getApartados db).2.1
    rw [hfold2]
  · show (List.foldl (apartadosReconcileStep (getApartados db).2.1.abonos)
        ((getApartados db).2.1.apartados, []) (getApartados db).2.1.apartados).2 = []
    rw [hfold2]

/-- C9 (witness): idempotence at a concrete store with one paid-off
sale and one paid-off layaway still marked `"Apartado"`. -/
theorem c9_reconciler_idempotent_witness :
    ((getVentas (getVentas ⟨[⟨1, 100, "2026-01-01", "Pendiente"⟩],
        [⟨1, 50, "Apartado", none⟩],
        [⟨some 1, none, 100, "2026-01-02", none⟩, ⟨none, some 1, 50, "2026-01-02", none⟩]⟩).2.1).2.1
      = (getVentas ⟨[⟨1, 100, "2026-01-01", "Pendiente"⟩],
        [⟨1, 50, "Apartado", none⟩],
        [⟨some 1, none, 100, "2026-01-02", none⟩, ⟨none, some 1, 50, "2026-01-02", none⟩]⟩).2.1 ∧
     (getVentas (getVentas ⟨[⟨1, 100, "2026-01-01", "Pendiente"⟩],
        [⟨1, 50, "Apartado", none⟩],
        [⟨some 1, none, 100, "2026-01-02", none⟩, ⟨none, some 1, 50, "2026-01-02", none⟩]⟩).2.1).2.2 = []) ∧
    ((getApartados (getApartados ⟨[⟨1, 100, "2026-01-01", "Pendiente"⟩],
        [⟨1, 50, "Apartado", none⟩],
        [⟨some 1, none, 100, "2026-01-02", none⟩, ⟨none, some 1, 50, "2026-01-02", none⟩]⟩).2.1).2.1
      = (getApartados ⟨[⟨1, 100, "2026-01-01", "Pendiente"⟩],
        [⟨1, 50, "Apartado", none⟩],
        [⟨some 1, none, 100, "2026-01-02", none⟩, ⟨none, some 1, 50, "2026-01-02", none⟩]⟩).2.1 ∧
     (getApartados (getApartados ⟨[⟨1, 100, "2026-01-01", "Pendiente"⟩],
        [⟨1, 50, "Apartado", none⟩],
        [⟨some 1, none, 100, "2026-01-02", none⟩, ⟨none, some 1, 50, "2026-01-02", none⟩]⟩).2.1).2.2 = []) :=
  c9_reconciler_idempotent
    ⟨[⟨1, 100, "2026-01-01", "Pendiente"⟩], [⟨1, 50, "Apartado", none⟩],
     [⟨some 1, none, 100, "2026-01-02", none⟩, ⟨none, some 1, 50, "2026-01-02", none⟩]⟩
    (by decide)

theorem ventaInsert_trace (db : DB) (refId : Nat) (v : Venta) (a : Abono) :
    (ventaInsert db refId v a).2.2 = [Ev.insert a, Ev.respond 201] ++
      (if v.monto - totalAbonadoVenta (db.abonos ++ [a]) refId ≤ eps
        then [Ev.statusWrite] else []) := by
  unfold ventaInsert; split <;> rfl

theorem apartadoInsert_trace (db : DB) (refId : Nat) (ap : Apartado) (a : Abono) :
    (apartadoInsert db refId ap a).2.2 = [Ev.insert a, Ev.respond 201] ++
      (if ap.montoTotal - totalAbonadoApartado (db.abonos ++ [a]) refId ≤ eps
        then [Ev.statusWrite] else []) := by
  unfold apartadoInsert; split <;> rfl

/-- C3 (counterexample): a fully settling payment against a sale of 100
produces the event order insert → 201 response → status write: the
fully-paid check is only queued when the 201 response is sent (the
source calls `res.status(201).json(...)` directly after issuing the
asynchronous `db.get`), so the parent's status write lands AFTER the
success response, not synchronously before it. -/
theorem c3_async_status_counterexample :
    (postAbono ⟨some 1, none, some (.fin 100), some "2026-01-01", none⟩
       ⟨[⟨1, 100, "2026-01-01", "Pendiente"⟩], [], []⟩).2.2
      = [Ev.insert ⟨some 1, none, 100, "2026-01-01", none⟩,
         Ev.respond 201, Ev.statusWrite] := by decide

/-- C3 (amended): when payment creation succeeds, the payment row is
inserted before the success response is sent, and the status
reconciliation condition is evaluated on the balance recomputed after
insertion — but the status write, when one happens, is applied strictly
after the 201 response (it is issued asynchronously), never before. -/
theorem c3_insert_then_respond_then_status (req : AbonoReq) (db : DB) (a : Abono)
    (hres : (postAbono req db).1 = .created a) :
    (postAbono req db).2.1.abonos = db.abonos ++ [a]
    ∧ (postAbono req db).2.2.take 2 = [Ev.insert a, Ev.respond 201]
    ∧ (∀ i, (postAbono req db).2.2[i]? = some Ev.statusWrite → 2 ≤ i)
    ∧ (Ev.statusWrite ∈ (postAbono req db).2.2 ↔
        ∃ s, parentSaldo req { db with abonos := db.abonos ++ [a] } = some s ∧ s ≤ eps) := by
  revert hres
  unfold postAbono
  split
  · intro hres; exact absurd hres (by simp)
  · split
    · intro hres; exact absurd hres (by simp)
    · split
      · intro hres; exact absurd hres (by simp)
      · split
        · split
          · intro hres; exact absurd hres (by simp)
          · split
            · intro hres; exact absurd hres (by simp)
            · rename_i hc1 hc2 ht hopt v heq hgt
              intro hres
              rw [ventaInsert_fst] at hres
              injection hres with ha
              subst ha
              have hvid : v.id = req.ventaId.getD 0 := by simpa using List.find?_some heq
              refine ⟨ventaInsert_abonos _ _ _ _, ?_, ?_, ?_⟩
              · rw [ventaInsert_trace]
                split
                · rfl
                · rfl
              · intro i hi
                rw [ventaInsert_trace] at hi
                rcases i with _ | _ | i
                · revert hi; split <;> (intro hi; simp at hi)
                · revert hi; split <;> (intro hi; simp at hi)
                · omega
              · have hps : parentSaldo req { db with abonos := db.abonos ++
                    [⟨some (req.ventaId.getD 0), none, (req.monto.getD .nan).toQ,
                      req.fecha.getD "", req.comentarios⟩] }
                    = some (v.monto - totalAbonadoVenta (db.abonos ++
                      [⟨some (req.ventaId.getD 0), none, (req.monto.getD .nan).toQ,
                        req.fecha.getD "", req.comentarios⟩]) (req.ventaId.getD 0)) := by
                  unfold parentSaldo
                  rw [if_pos ht]
                  show (db.ventas.find? (fun w => w.id == req.ventaId.getD 0)).map _ = _
                  rw [heq, Option.map_some', hvid]
                rw [ventaInsert_trace]
                by_cases hp : v.monto - totalAbonadoVenta (db.abonos ++
                    [⟨some (req.ventaId.getD 0), none, (req.monto.getD .nan).toQ,
                      req.fecha.getD "", req.comentarios⟩]) (req.ventaId.getD 0) ≤ eps
                · rw [if_pos hp]
                  exact ⟨fun _ => ⟨_, hps, hp⟩, fun _ => by simp⟩
                · rw [if_neg hp]
                  constructor
                  · intro hmem; simp at hmem
                  · rintro ⟨s, hs, hsle⟩
                    rw [hps] at hs
                    injection hs with hs'
                    rw [← hs'] at hsle
                    exact absurd hsle hp
        · split
          · intro hres; exact absurd hres (by simp)
          · split
            · intro hres; exact absurd hres (by simp)
            · rename_i hc1 hc2 ht hopt ap heq hgt
              intro hres
              rw [apartadoInsert_fst] at hres
              injection hres with ha
              subst ha
              have haid : ap.id = req.apartadoId.getD 0 := by simpa using List.find?_some heq
              refine ⟨apartadoInsert_abonos _ _ _ _, ?_, ?_, ?_⟩
              · rw [apartadoInsert_trace]
                split
                · rfl
                · rfl
              · intro i hi
                rw [apartadoInsert_trace] at hi
                rcases i with _ | _ | i
                · revert hi; split <;> (intro hi; simp at hi)
                · revert hi; split <;> (intro hi; simp at hi)
                · omega
              · have hps : parentSaldo req { db with abonos := db.abonos ++
                    [⟨none, some (req.apartadoId.getD 0), (req.monto.getD .nan).toQ,
                      req.fecha.getD "", req.comentarios⟩] }
                    = some (ap.montoTotal - totalAbonadoApartado (db.abonos ++
                      [⟨none, some (req.apartadoId.getD 0), (req.monto.getD .nan).toQ,
                        req.fecha.getD "", req.comentarios⟩]) (req.apartadoId.getD 0)) := by
                  unfold parentSaldo
                  rw [if_neg ht]
                  show (db.apartados.find? (fun w => w.id == req.apartadoId.getD 0)).map _ = _
                  rw [heq, Option.map_some', haid]
                rw [apartadoInsert_trace]
                by_cases hp : ap.montoTotal - totalAbonadoApartado (db.abonos ++
                    [⟨none, some (req.apartadoId.getD 0), (req.monto.getD .nan).toQ,
                      req.fecha.getD "", req.comentarios⟩]) (req.apartadoId.getD 0) ≤ eps
                · rw [if_pos hp]
                  exact ⟨fun _ => ⟨_, hps, hp⟩, fun _ => by simp⟩
                · rw [if_neg hp]
                  constructor
                  · intro hmem; simp at hmem
                  · rintro ⟨s, hs, hsle⟩
                    rw [hps] at hs
                    injection hs with hs'
                    rw [← hs'] at hsle
                    exact absurd hsle hp

/-- C3 (witness): a partial payment of 30 against a sale of 100 — the
row is inserted, the first two events are the insert and the 201
response, any status write would come later, and none happens since the
post-insert balance (70) is not settled. -/
theorem c3_insert_then_respond_then_status_witness :
    (postAbono ⟨some 1, none, some (.fin 30), some "2026-01-04", none⟩
       ⟨[⟨1, 100, "2026-01-01", "Pendiente"⟩], [], []⟩).2.1.abonos
      = ([] : List Abono) ++ [⟨some 1, none, 30, "2026-01-04", none⟩]
    ∧ (postAbono ⟨some 1, none, some (.fin 30), some "2026-01-04", none⟩
       ⟨[⟨1, 100, "2026-01-01", "Pendiente"⟩], [], []⟩).2.2.take 2
      = [Ev.insert ⟨some 1, none, 30, "2026-01-04", none⟩, Ev.respond 201]
    ∧ (∀ i, (postAbono ⟨some 1, none, some (.fin 30), some "2026-01-04", none⟩
       ⟨[⟨1, 100, "2026-01-01", "Pendiente"⟩], [], []⟩).2.2[i]? = some Ev.statusWrite → 2 ≤ i)
    ∧ (Ev.statusWrite ∈ (postAbono ⟨some 1, none, some (.fin 30), some "2026-01-04", none⟩
       ⟨[⟨1, 100, "2026-01-01", "Pendiente"⟩], [], []⟩).2.2 ↔
        ∃ s, parentSaldo ⟨some 1, none, some (.fin 30), some "2026-01-04", none⟩
          { (⟨[⟨1, 100, "2026-01-01", "Pendiente"⟩], [], []⟩ : DB) with
            abonos := ([] : List Abono) ++ [⟨some 1, none, 30, "2026-01-04", none⟩] }
          = some s ∧ s ≤ eps) :=
  c3_insert_then_respond_then_status
    ⟨some 1, none, some (.fin 30), some "2026-01-04", none⟩
    ⟨[⟨1, 100, "2026-01-01", "Pendiente"⟩], [], []⟩
    ⟨some 1, none, 30, "2026-01-04", none⟩ (by decide)
